import Mathlib

/-!
Verification development for the GMet climate-products engine.

The definitions below are a shallow embedding of the Python sources:
  * `app/utils/aggregation.py`  (period resolvers and WMO aggregation),
  * `app/utils/agro.py`         (GDD, ET0, onset/cessation detection),
  * `scripts/compute_climate_normals.py` (30-year climate normals),
  * `app/crud/products.py`      (lazy get-or-compute orchestration).

Conventions of the embedding:
  * Python floats are modelled as exact rationals (`ℚ`); `round(x, n)` is
    modelled by exact half-to-even decimal rounding (`pyRound`), which is what
    Python's `round` computes on decimally-exact values.
  * Calendar dates are a plain record `SDate` (year/month/day); the
    day-indexed sliding-window algorithms of `agro.py` work over day numbers
    (`ℤ`) and a rainfall lookup `ℤ → Option ℚ`, modelling the
    `{date: rainfall}` dictionary built by `detect_onset`/`detect_cessation`.
  * Database queries are abstracted: each aggregation function receives the
    list of `DailySummary` rows its query would return, and the climate-normal
    lookups are `Option` parameters.  Fallible Python code (exceptions)
    returns `Option`/`Except`.
  * The transcendental float functions used by the Hargreaves ET0 code
    (`math.sin`, `cos`, `tan`, `acos`, `sqrt`, `pi`) are abstracted as a
    parameter record `FloatOps`; the *domain checks* that make `math.sqrt` and
    `math.acos` raise `math domain error` are embedded explicitly, since the
    claims about this code concern totality and error propagation only.
-/

/-- Exact round-half-to-even to an integer, the rounding rule of Python's
`round` on exact decimal values. -/
def roundHalfEven (x : ℚ) : ℤ :=
  let n := Int.floor x
  let r := x - n
  if r < 1/2 then n
  else if 1/2 < r then n + 1
  else if n % 2 = 0 then n else n + 1

/-- Model of Python `round(x, dgs)` for floats holding decimal data. -/
def pyRound (x : ℚ) (dgs : ℕ) : ℚ :=
  ((roundHalfEven (x * 10 ^ dgs) : ℤ) : ℚ) / 10 ^ dgs

/-- A calendar date, as produced by Python `datetime.date`. -/
structure SDate where
  year : ℤ
  month : ℕ
  day : ℕ
deriving DecidableEq, Repr

/-- One row of the `daily_summaries` table (`DailySummary` model): the fields
read by the aggregation and agro code.  All measurements are nullable. -/
structure DailyRec where
  date : SDate
  rainfall_total : Option ℚ
  temp_max : Option ℚ
  temp_min : Option ℚ
  mean_rh : Option ℚ
  wind_speed : Option ℚ
  sunshine_hours : Option ℚ
deriving DecidableEq, Repr

/-- A `climate_normals` row as read by the aggregation code (only the two
fields it accesses). -/
structure NormalRec where
  rainfall_normal : Option ℚ
  temp_mean_normal : Option ℚ
deriving DecidableEq, Repr

/-- `is_leap_year` from `aggregation.py` (the same function is re-defined in
`compute_climate_normals.py`). -/
def is_leap_year (y : ℤ) : Bool :=
  (decide (y % 4 = 0) && decide (y % 100 ≠ 0)) || decide (y % 400 = 0)

/-- `days_in_month` (via Python `calendar.monthrange`) for valid months 1-12;
invalid months would raise in Python, here the final branch returns 31. -/
def days_in_month (y : ℤ) (m : ℕ) : ℕ :=
  if m = 2 then (if is_leap_year y then 29 else 28)
  else if m = 4 ∨ m = 6 ∨ m = 9 ∨ m = 11 then 30
  else 31

/-- Day of year (`date.timetuple().tm_yday`). -/
def dayOfYear (d : SDate) : ℕ :=
  (List.range (d.month - 1)).foldl (fun a i => a + days_in_month d.year (i + 1)) 0 + d.day

/-- Proleptic-Gregorian ordinal (`date.toordinal`), used to model
`timedelta` subtraction between dates. -/
def toOrdinal (d : SDate) : ℤ :=
  365 * (d.year - 1) + (d.year - 1) / 4 - (d.year - 1) / 100 + (d.year - 1) / 400
    + (dayOfYear d : ℤ)

/-- Spec-side Gregorian leap-year condition (stated arithmetically, not via
the code's `is_leap_year`). -/
def leapSpec (y : ℤ) : Prop :=
  (y % 4 = 0 ∧ y % 100 ≠ 0) ∨ y % 400 = 0

instance (y : ℤ) : Decidable (leapSpec y) := by
  unfold leapSpec; infer_instance

/-- Spec-side number of days of a calendar month (claim wording: dekad 3 ends
on the actual last day of the month, 28/29/30/31). -/
def monthLenSpec (y : ℤ) (m : ℕ) : ℕ :=
  if m = 2 then (if leapSpec y then 29 else 28)
  else if m = 4 ∨ m = 6 ∨ m = 9 ∨ m = 11 then 30
  else 31

/-- Spec-side end-of-February day for a given year. -/
def febEndSpec (y : ℤ) : ℕ := if leapSpec y then 29 else 28

/-- `get_dekad_for_date` from `aggregation.py`. -/
def get_dekad_for_date (d : SDate) : ℤ × ℕ × ℕ × SDate × SDate :=
  if d.day ≤ 10 then
    (d.year, d.month, 1, ⟨d.year, d.month, 1⟩, ⟨d.year, d.month, 10⟩)
  else if d.day ≤ 20 then
    (d.year, d.month, 2, ⟨d.year, d.month, 11⟩, ⟨d.year, d.month, 20⟩)
  else
    (d.year, d.month, 3, ⟨d.year, d.month, 21⟩,
      ⟨d.year, d.month, days_in_month d.year d.month⟩)

/-- The dekad date-range computation at the top of `compute_dekadal_summary`
(lines 530-539 of `aggregation.py`); any dekad other than 1 or 2 falls into
the `else  # dekad == 3` branch, as in the source. -/
def dekad_date_range (year : ℤ) (month : ℕ) (dekad : ℕ) : SDate × SDate :=
  if dekad = 1 then (⟨year, month, 1⟩, ⟨year, month, 10⟩)
  else if dekad = 2 then (⟨year, month, 11⟩, ⟨year, month, 20⟩)
  else (⟨year, month, 21⟩, ⟨year, month, days_in_month year month⟩)

/-- `get_season_for_date` from `aggregation.py`.  Returns
(season code, season year, start date, end date); for DJF the season year is
the December year. -/
def get_season_for_date (d : SDate) : String × ℤ × SDate × SDate :=
  if d.month = 3 ∨ d.month = 4 ∨ d.month = 5 then
    ("MAM", d.year, ⟨d.year, 3, 1⟩, ⟨d.year, 5, 31⟩)
  else if d.month = 6 ∨ d.month = 7 ∨ d.month = 8 then
    ("JJA", d.year, ⟨d.year, 6, 1⟩, ⟨d.year, 8, 31⟩)
  else if d.month = 9 ∨ d.month = 10 ∨ d.month = 11 then
    ("SON", d.year, ⟨d.year, 9, 1⟩, ⟨d.year, 11, 30⟩)
  else if d.month = 12 then
    ("DJF", d.year, ⟨d.year, 12, 1⟩,
      ⟨d.year + 1, 2, if is_leap_year (d.year + 1) then 29 else 28⟩)
  else
    ("DJF", d.year - 1, ⟨d.year - 1, 12, 1⟩,
      ⟨d.year, 2, if is_leap_year d.year then 29 else 28⟩)

/-- The season date-range and expected-days computation at the top of
`compute_seasonal_summary` (lines 644-662 of `aggregation.py`).  The source
raises `ValueError` for an unknown season code; that is modelled as `none`. -/
def season_date_range (year : ℤ) (season : String) :
    Option (SDate × SDate × ℕ) :=
  if season = "MAM" then some (⟨year, 3, 1⟩, ⟨year, 5, 31⟩, 92)
  else if season = "JJA" then some (⟨year, 6, 1⟩, ⟨year, 8, 31⟩, 92)
  else if season = "SON" then some (⟨year, 9, 1⟩, ⟨year, 11, 30⟩, 91)
  else if season = "DJF" then
    some (⟨year, 12, 1⟩,
      ⟨year + 1, 2, if is_leap_year (year + 1) then 29 else 28⟩,
      if is_leap_year (year + 1) then 91 else 90)
  else none

/-- `calculate_gdd` from `agro.py`.  The `method` parameter is the Python
string argument; `upper_temp` is the optional upper threshold.  Note the
source guards the cap with `if upper_temp`, which is Python *truthiness*: an
upper threshold of `0.0` behaves like `None`. -/
def calculate_gdd (temp_max temp_min base_temp : ℚ) (upper_temp : Option ℚ)
    (method : String) : ℚ :=
  if method = "modified" then
    let tmax_adj :=
      match upper_temp with
      | some u => if u = 0 then temp_max else min temp_max u
      | none => temp_max
    let tmin_adj := max temp_min base_temp
    max 0 ((tmax_adj + tmin_adj) / 2 - base_temp)
  else
    max 0 ((temp_max + temp_min) / 2 - base_temp)

/-- Python `max(values)` for a possibly-empty list. -/
def listMax : List ℚ → Option ℚ
  | [] => none
  | x :: xs => some (xs.foldl max x)

/-- Python `min(values)` for a possibly-empty list. -/
def listMin : List ℚ → Option ℚ
  | [] => none
  | x :: xs => some (xs.foldl min x)

/-- Python `max(iterable, key=...)` (keeps the first maximal element). -/
def argmaxBy (key : DailyRec → ℚ) : List DailyRec → Option DailyRec
  | [] => none
  | x :: xs => some (xs.foldl (fun acc r => if key acc < key r then r else acc) x)

/-- Python `min(iterable, key=...)` (keeps the first minimal element). -/
def argminBy (key : DailyRec → ℚ) : List DailyRec → Option DailyRec
  | [] => none
  | x :: xs => some (xs.foldl (fun acc r => if key r < key acc then r else acc) x)

/-- `compute_climate_anomaly` from `aggregation.py`; the `ValueError` raised
for an unknown method string is modelled as `none`. -/
def compute_climate_anomaly (value normal : Option ℚ) (method : String) :
    Option ℚ :=
  match value, normal with
  | some v, some n =>
    if method = "absolute" then some (v - n)
    else if method = "percent" then
      (if n = 0 then none else some ((v - n) / n * 100))
    else none
  | _, _ => none

/-- Result record of `compute_weekly_summary`.  The `start_date`/`end_date`
entries of the Python dict (from `get_week_date_range`) are omitted: no claim
refers to ISO-week bounds. -/
structure WeeklyOut where
  station_id : ℕ
  year : ℤ
  week_number : ℕ
  rainfall_total : Option ℚ
  wet_days_count : Option ℕ
  max_daily_rainfall : Option ℚ
  temp_max_mean : Option ℚ
  temp_min_mean : Option ℚ
  temp_max_absolute : Option ℚ
  temp_min_absolute : Option ℚ
  mean_rh : Option ℤ
  mean_wind_speed : Option ℚ
  sunshine_total : Option ℚ
deriving DecidableEq, Repr

/-- `compute_weekly_summary` from `aggregation.py`.  `daily_data` is the list
of rows its date-range query returns; the DB session is abstracted away. -/
def compute_weekly_summary (daily_data : List DailyRec) (station_id : ℕ)
    (year : ℤ) (week_number : ℕ) : Option WeeklyOut :=
  if daily_data.length < 5 then none
  else
    let rainfall_values := daily_data.filterMap DailyRec.rainfall_total
    let tmax_values := daily_data.filterMap DailyRec.temp_max
    let tmin_values := daily_data.filterMap DailyRec.temp_min
    let rh_values := daily_data.filterMap DailyRec.mean_rh
    let wind_values := daily_data.filterMap DailyRec.wind_speed
    let sunshine_values := daily_data.filterMap DailyRec.sunshine_hours
    let wet_days := rainfall_values.countP (fun r => decide (1 ≤ r))
    some {
      station_id := station_id
      year := year
      week_number := week_number
      rainfall_total := if rainfall_values = [] then none
        else some rainfall_values.sum
      wet_days_count := if rainfall_values = [] then none else some wet_days
      max_daily_rainfall := listMax rainfall_values
      temp_max_mean := if tmax_values = [] then none
        else some (pyRound (tmax_values.sum / (tmax_values.length : ℚ)) 1)
      temp_min_mean := if tmin_values = [] then none
        else some (pyRound (tmin_values.sum / (tmin_values.length : ℚ)) 1)
      temp_max_absolute := listMax tmax_values
      temp_min_absolute := listMin tmin_values
      mean_rh := if rh_values = [] then none
        else some (roundHalfEven (rh_values.sum / (rh_values.length : ℚ)))
      mean_wind_speed := if wind_values = [] then none
        else some (pyRound (wind_values.sum / (wind_values.length : ℚ)) 1)
      sunshine_total := if sunshine_values = [] then none
        else some (pyRound sunshine_values.sum 1)
    }

/-- Result record of `compute_monthly_summary`. -/
structure MonthlyOut where
  station_id : ℕ
  year : ℤ
  month : ℕ
  rainfall_total : Option ℚ
  rainfall_anomaly : Option ℚ
  rainfall_anomaly_percent : Option ℚ
  rainfall_days : Option ℕ
  max_daily_rainfall : Option ℚ
  temp_max_mean : Option ℚ
  temp_min_mean : Option ℚ
  temp_mean : Option ℚ
  temp_max_absolute : Option ℚ
  temp_min_absolute : Option ℚ
  temp_anomaly : Option ℚ
  mean_rh : Option ℤ
  mean_wind_speed : Option ℚ
  sunshine_total : Option ℚ
  days_with_data : ℕ
  data_completeness_percent : ℚ
deriving DecidableEq, Repr

/-- `compute_monthly_summary` from `aggregation.py`.  `daily_data` is the
month's query result and `normal` the row returned by
`climate_normal.get_monthly_normal` (both DB interactions abstracted).
Note the Python truthiness guard `if temp_mean` on the rounded mean: a mean
temperature of exactly `0.0` yields `None`. -/
def compute_monthly_summary (daily_data : List DailyRec) (station_id : ℕ)
    (year : ℤ) (month : ℕ) (normal : Option NormalRec) : Option MonthlyOut :=
  let days_in_this_month := days_in_month year month
  let days_with_data := daily_data.length
  let data_completeness_percent : ℚ :=
    ((days_with_data : ℚ) / (days_in_this_month : ℚ)) * 100
  if data_completeness_percent < 70 then none
  else
    let rainfall_values := daily_data.filterMap DailyRec.rainfall_total
    let tmax_values := daily_data.filterMap DailyRec.temp_max
    let tmin_values := daily_data.filterMap DailyRec.temp_min
    let rh_values := daily_data.filterMap DailyRec.mean_rh
    let wind_values := daily_data.filterMap DailyRec.wind_speed
    let sunshine_values := daily_data.filterMap DailyRec.sunshine_hours
    let rainfall_days := rainfall_values.countP (fun r => decide (1 ≤ r))
    let temp_mean : Option ℚ :=
      if tmax_values ≠ [] ∧ tmin_values ≠ [] then
        some ((tmax_values.sum / (tmax_values.length : ℚ)
          + tmin_values.sum / (tmin_values.length : ℚ)) / 2)
      else none
    let rainfall_anomaly : Option ℚ :=
      match normal with
      | some nr =>
        if rainfall_values ≠ [] ∧ nr.rainfall_normal.isSome then
          (compute_climate_anomaly (some rainfall_values.sum)
            nr.rainfall_normal "absolute").map (fun a => pyRound a 1)
        else none
      | none => none
    let rainfall_anomaly_percent : Option ℚ :=
      match normal with
      | some nr =>
        if rainfall_values ≠ [] ∧ nr.rainfall_normal.isSome then
          (compute_climate_anomaly (some rainfall_values.sum)
            nr.rainfall_normal "percent").map (fun a => pyRound a 1)
        else none
      | none => none
    let temp_anomaly : Option ℚ :=
      match normal with
      | some nr =>
        if temp_mean.isSome ∧ nr.temp_mean_normal.isSome then
          (compute_climate_anomaly temp_mean nr.temp_mean_normal
            "absolute").map (fun a => pyRound a 1)
        else none
      | none => none
    some {
      station_id := station_id
      year := year
      month := month
      rainfall_total := if rainfall_values = [] then none
        else some (pyRound rainfall_values.sum 1)
      rainfall_anomaly := rainfall_anomaly
      rainfall_anomaly_percent := rainfall_anomaly_percent
      rainfall_days := if rainfall_values = [] then none else some rainfall_days
      max_daily_rainfall := (listMax rainfall_values).map (fun m => pyRound m 1)
      temp_max_mean := if tmax_values = [] then none
        else some (pyRound (tmax_values.sum / (tmax_values.length : ℚ)) 1)
      temp_min_mean := if tmin_values = [] then none
        else some (pyRound (tmin_values.sum / (tmin_values.length : ℚ)) 1)
      temp_mean :=
        match temp_mean with
        | some t => if t = 0 then none else some (pyRound t 1)
        | none => none
      temp_max_absolute := listMax tmax_values
      temp_min_absolute := listMin tmin_values
      temp_anomaly := temp_anomaly
      mean_rh := if rh_values = [] then none
        else some (roundHalfEven (rh_values.sum / (rh_values.length : ℚ)))
      mean_wind_speed := if wind_values = [] then none
        else some (pyRound (wind_values.sum / (wind_values.length : ℚ)) 1)
      sunshine_total := if sunshine_values = [] then none
        else some (pyRound sunshine_values.sum 1)
      days_with_data := days_with_data
      data_completeness_percent := pyRound data_completeness_percent 1
    }

/-- Result record of `compute_dekadal_summary`. -/
structure DekadalOut where
  station_id : ℕ
  year : ℤ
  month : ℕ
  dekad : ℕ
  start_date : SDate
  end_date : SDate
  rainfall_total : Option ℚ
  rainfall_anomaly : Option ℚ
  rainfall_anomaly_percent : Option ℚ
  rainy_days : Option ℕ
  temp_max_mean : Option ℚ
  temp_min_mean : Option ℚ
  temp_max_absolute : Option ℚ
  temp_min_absolute : Option ℚ
  mean_rh : Option ℤ
  sunshine_total : Option ℚ
deriving DecidableEq, Repr

/-- `compute_dekadal_summary` from `aggregation.py`; `normal` abstracts the
`get_dekadal_normal` lookup.  The completeness gate is the fixed test
`len(daily_data) < 7`, independent of the dekad's actual length. -/
def compute_dekadal_summary (daily_data : List DailyRec) (station_id : ℕ)
    (year : ℤ) (month : ℕ) (dekad : ℕ) (normal : Option NormalRec) :
    Option DekadalOut :=
  let range := dekad_date_range year month dekad
  if daily_data.length < 7 then none
  else
    let rainfall_values := daily_data.filterMap DailyRec.rainfall_total
    let tmax_values := daily_data.filterMap DailyRec.temp_max
    let tmin_values := daily_data.filterMap DailyRec.temp_min
    let rh_values := daily_data.filterMap DailyRec.mean_rh
    let sunshine_values := daily_data.filterMap DailyRec.sunshine_hours
    let rainy_days := rainfall_values.countP (fun r => decide (1 ≤ r))
    let rainfall_anomaly : Option ℚ :=
      match normal with
      | some nr =>
        if rainfall_values ≠ [] ∧ nr.rainfall_normal.isSome then
          (compute_climate_anomaly (some rainfall_values.sum)
            nr.rainfall_normal "absolute").map (fun a => pyRound a 1)
        else none
      | none => none
    let rainfall_anomaly_percent : Option ℚ :=
      match normal with
      | some nr =>
        if rainfall_values ≠ [] ∧ nr.rainfall_normal.isSome then
          (compute_climate_anomaly (some rainfall_values.sum)
            nr.rainfall_normal "percent").map (fun a => pyRound a 1)
        else none
      | none => none
    some {
      station_id := station_id
      year := year
      month := month
      dekad := dekad
      start_date := range.1
      end_date := range.2
      rainfall_total := if rainfall_values = [] then none
        else some (pyRound rainfall_values.sum 1)
      rainfall_anomaly := rainfall_anomaly
      rainfall_anomaly_percent := rainfall_anomaly_percent
      rainy_days := if rainfall_values = [] then none else some rainy_days
      temp_max_mean := if tmax_values = [] then none
        else some (pyRound (tmax_values.sum / (tmax_values.length : ℚ)) 1)
      temp_min_mean := if tmin_values = [] then none
        else some (pyRound (tmin_values.sum / (tmin_values.length : ℚ)) 1)
      temp_max_absolute := listMax tmax_values
      temp_min_absolute := listMin tmin_values
      mean_rh := if rh_values = [] then none
        else some (roundHalfEven (rh_values.sum / (rh_values.length : ℚ)))
      sunshine_total := if sunshine_values = [] then none
        else some (pyRound sunshine_values.sum 1)
    }

/-- Result record of `compute_seasonal_summary`. -/
structure SeasonalOut where
  station_id : ℕ
  year : ℤ
  season : String
  start_date : SDate
  end_date : SDate
  rainfall_total : Option ℚ
  rainfall_anomaly : Option ℚ
  rainfall_anomaly_percent : Option ℚ
  rainy_days : Option ℕ
  onset_date : Option SDate
  cessation_date : Option SDate
  season_length_days : Option ℤ
  max_dry_spell_days : Option ℕ
  dry_spells_count : Option ℕ
  temp_max_mean : Option ℚ
  temp_min_mean : Option ℚ
  temp_anomaly : Option ℚ
  hot_days_count : Option ℕ
  mean_rh : Option ℤ
  sunshine_total : Option ℚ
deriving DecidableEq, Repr

/-- The dry-spell fold of `compute_seasonal_summary` (state:
max dry spell, completed-spell count, current run; days with null rainfall are
skipped). -/
def drySpellFold (daily_data : List DailyRec) : ℕ × ℕ × ℕ :=
  daily_data.foldl
    (fun st d =>
      match d.rainfall_total with
      | some r =>
        if r < 1 then
          (max st.1 (st.2.2 + 1), st.2.1, st.2.2 + 1)
        else
          (st.1, if 7 ≤ st.2.2 then st.2.1 + 1 else st.2.1, 0)
      | none => st)
    (0, 0, 0)

/-- `compute_seasonal_summary` from `aggregation.py`.  `normal` abstracts the
`get_seasonal_normal` lookup and `onset_info` the
`compute_onset_cessation_for_season` call (its onset/cessation dates), which
the source performs only for MAM and JJA. -/
def compute_seasonal_summary (daily_data : List DailyRec) (station_id : ℕ)
    (year : ℤ) (season : String) (normal : Option NormalRec)
    (onset_info : Option SDate × Option SDate) : Option SeasonalOut :=
  match season_date_range year season with
  | none => none
  | some (start_date, end_date, expected_days) =>
    let days_with_data := daily_data.length
    let data_completeness : ℚ :=
      ((days_with_data : ℚ) / (expected_days : ℚ)) * 100
    if data_completeness < 70 then none
    else
      let rainfall_values := daily_data.filterMap DailyRec.rainfall_total
      let tmax_values := daily_data.filterMap DailyRec.temp_max
      let tmin_values := daily_data.filterMap DailyRec.temp_min
      let rh_values := daily_data.filterMap DailyRec.mean_rh
      let sunshine_values := daily_data.filterMap DailyRec.sunshine_hours
      let rainy_days := rainfall_values.countP (fun r => decide (1 ≤ r))
      let hot_days_count := tmax_values.countP (fun t => decide (35 < t))
      let ds := drySpellFold daily_data
      let max_dry_spell := ds.1
      let dry_spells_count := if 7 ≤ ds.2.2 then ds.2.1 + 1 else ds.2.1
      let onset_date : Option SDate :=
        if season = "MAM" ∨ season = "JJA" then onset_info.1 else none
      let cessation_date : Option SDate :=
        if season = "MAM" ∨ season = "JJA" then onset_info.2 else none
      let season_length_days : Option ℤ :=
        match onset_date, cessation_date with
        | some o, some c => some (toOrdinal c - toOrdinal o)
        | _, _ => none
      let temp_mean : Option ℚ :=
        if tmax_values ≠ [] ∧ tmin_values ≠ [] then
          some ((tmax_values.sum / (tmax_values.length : ℚ)
            + tmin_values.sum / (tmin_values.length : ℚ)) / 2)
        else none
      let rainfall_anomaly : Option ℚ :=
        match normal with
        | some nr =>
          if rainfall_values ≠ [] ∧ nr.rainfall_normal.isSome then
            (compute_climate_anomaly (some rainfall_values.sum)
              nr.rainfall_normal "absolute").map (fun a => pyRound a 1)
          else none
        | none => none
      let rainfall_anomaly_percent : Option ℚ :=
        match normal with
        | some nr =>
          if rainfall_values ≠ [] ∧ nr.rainfall_normal.isSome then
            (compute_climate_anomaly (some rainfall_values.sum)
              nr.rainfall_normal "percent").map (fun a => pyRound a 1)
          else none
        | none => none
      let temp_anomaly : Option ℚ :=
        match normal with
        | some nr =>
          if temp_mean.isSome ∧ nr.temp_mean_normal.isSome then
            (compute_climate_anomaly temp_mean nr.temp_mean_normal
              "absolute").map (fun a => pyRound a 1)
          else none
        | none => none
      some {
        station_id := station_id
        year := year
        season := season
        start_date := start_date
        end_date := end_date
        rainfall_total := if rainfall_values = [] then none
          else some (pyRound rainfall_values.sum 1)
        rainfall_anomaly := rainfall_anomaly
        rainfall_anomaly_percent := rainfall_anomaly_percent
        rainy_days := if rainfall_values = [] then none else some rainy_days
        onset_date := onset_date
        cessation_date := cessation_date
        season_length_days := season_length_days
        max_dry_spell_days := if rainfall_values = [] then none
          else some max_dry_spell
        dry_spells_count := if rainfall_values = [] then none
          else some dry_spells_count
        temp_max_mean := if tmax_values = [] then none
          else some (pyRound (tmax_values.sum / (tmax_values.length : ℚ)) 1)
        temp_min_mean := if tmin_values = [] then none
          else some (pyRound (tmin_values.sum / (tmin_values.length : ℚ)) 1)
        temp_anomaly := temp_anomaly
        hot_days_count := if tmax_values = [] then none else some hot_days_count
        mean_rh := if rh_values = [] then none
          else some (roundHalfEven (rh_values.sum / (rh_values.length : ℚ)))
        sunshine_total := if sunshine_values = [] then none
          else some (pyRound sunshine_values.sum 1)
      }

/-- Result record of `compute_annual_summary`. -/
structure AnnualOut where
  station_id : ℕ
  year : ℤ
  rainfall_total : Option ℚ
  rainfall_anomaly : Option ℚ
  rainfall_anomaly_percent : Option ℚ
  rainfall_days : Option ℕ
  max_daily_rainfall : Option ℚ
  max_daily_rainfall_date : Option SDate
  temp_max_absolute : Option ℚ
  temp_max_absolute_date : Option SDate
  temp_min_absolute : Option ℚ
  temp_min_absolute_date : Option SDate
  temp_mean_annual : Option ℚ
  temp_anomaly : Option ℚ
  hot_days_count : Option ℕ
  very_hot_days_count : Option ℕ
  heavy_rain_days : Option ℕ
  mean_rh_annual : Option ℤ
  sunshine_total : Option ℚ
  data_completeness_percent : ℚ
deriving DecidableEq, Repr

/-- `compute_annual_summary` from `aggregation.py`; `normal` abstracts the
`get_annual_normal` lookup.  The extremes use Python `max(..., key=...)` with
truthiness defaults (`d.temp_max if d.temp_max else -999`), embedded
verbatim; note `0.0` values hit the falsy branch. -/
def compute_annual_summary (daily_data : List DailyRec) (station_id : ℕ)
    (year : ℤ) (normal : Option NormalRec) : Option AnnualOut :=
  let expected_days : ℕ := if is_leap_year year then 366 else 365
  let days_with_data := daily_data.length
  let data_completeness_percent : ℚ :=
    ((days_with_data : ℚ) / (expected_days : ℚ)) * 100
  if data_completeness_percent < 80 then none
  else
    let rainfall_values := daily_data.filterMap DailyRec.rainfall_total
    let tmax_values := daily_data.filterMap DailyRec.temp_max
    let tmin_values := daily_data.filterMap DailyRec.temp_min
    let rh_values := daily_data.filterMap DailyRec.mean_rh
    let sunshine_values := daily_data.filterMap DailyRec.sunshine_hours
    let max_rainfall_pair : Option (Option ℚ × SDate) :=
      if rainfall_values = [] then none
      else (argmaxBy (fun d =>
        match d.rainfall_total with
        | some r => if r = 0 then 0 else r
        | none => 0) daily_data).map (fun d => (d.rainfall_total, d.date))
    let max_temp_pair : Option (Option ℚ × SDate) :=
      if tmax_values = [] then none
      else (argmaxBy (fun d =>
        match d.temp_max with
        | some t => if t = 0 then -999 else t
        | none => -999) daily_data).map (fun d => (d.temp_max, d.date))
    let min_temp_pair : Option (Option ℚ × SDate) :=
      if tmin_values = [] then none
      else (argminBy (fun d =>
        match d.temp_min with
        | some t => if t = 0 then 999 else t
        | none => 999) daily_data).map (fun d => (d.temp_min, d.date))
    let rainfall_days := rainfall_values.countP (fun r => decide (1 ≤ r))
    let heavy_rain_days := rainfall_values.countP (fun r => decide (50 < r))
    let hot_days_count := tmax_values.countP (fun t => decide (35 < t))
    let very_hot_days_count := tmax_values.countP (fun t => decide (40 < t))
    let temp_mean_annual : Option ℚ :=
      if tmax_values ≠ [] ∧ tmin_values ≠ [] then
        some ((tmax_values.sum / (tmax_values.length : ℚ)
          + tmin_values.sum / (tmin_values.length : ℚ)) / 2)
      else none
    let rainfall_anomaly : Option ℚ :=
      match normal with
      | some nr =>
        if rainfall_values ≠ [] ∧ nr.rainfall_normal.isSome then
          (compute_climate_anomaly (some rainfall_values.sum)
            nr.rainfall_normal "absolute").map (fun a => pyRound a 1)
        else none
      | none => none
    let rainfall_anomaly_percent : Option ℚ :=
      match normal with
      | some nr =>
        if rainfall_values ≠ [] ∧ nr.rainfall_normal.isSome then
          (compute_climate_anomaly (some rainfall_values.sum)
            nr.rainfall_normal "percent").map (fun a => pyRound a 1)
        else none
      | none => none
    let temp_anomaly : Option ℚ :=
      match normal with
      | some nr =>
        if temp_mean_annual.isSome ∧ nr.temp_mean_normal.isSome then
          (compute_climate_anomaly temp_mean_annual nr.temp_mean_normal
            "absolute").map (fun a => pyRound a 1)
        else none
      | none => none
    some {
      station_id := station_id
      year := year
      rainfall_total := if rainfall_values = [] then none
        else some (pyRound rainfall_values.sum 1)
      rainfall_anomaly := rainfall_anomaly
      rainfall_anomaly_percent := rainfall_anomaly_percent
      rainfall_days := if rainfall_values = [] then none else some rainfall_days
      max_daily_rainfall :=
        match max_rainfall_pair with
        | some (some r, _) => if r = 0 then none else some (pyRound r 1)
        | _ => none
      max_daily_rainfall_date := max_rainfall_pair.map Prod.snd
      temp_max_absolute :=
        match max_temp_pair with
        | some (t, _) => t
        | none => none
      temp_max_absolute_date := max_temp_pair.map Prod.snd
      temp_min_absolute :=
        match min_temp_pair with
        | some (t, _) => t
        | none => none
      temp_min_absolute_date := min_temp_pair.map Prod.snd
      temp_mean_annual :=
        match temp_mean_annual with
        | some t => if t = 0 then none else some (pyRound t 1)
        | none => none
      temp_anomaly := temp_anomaly
      hot_days_count := if tmax_values = [] then none else some hot_days_count
      very_hot_days_count := if tmax_values = [] then none
        else some very_hot_days_count
      heavy_rain_days := if rainfall_values = [] then none
        else some heavy_rain_days
      mean_rh_annual := if rh_values = [] then none
        else some (roundHalfEven (rh_values.sum / (rh_values.length : ℚ)))
      sunshine_total := if sunshine_values = [] then none
        else some (pyRound sunshine_values.sum 1)
      data_completeness_percent := pyRound data_completeness_percent 1
    }

/-- Result record of `compute_monthly_normal` from
`scripts/compute_climate_normals.py`.  The standard-deviation entries of the
Python dict (`statistics.stdev`, a real square root) are omitted: no claim
refers to them and they are not rational-valued. -/
structure NormalOut where
  station_id : ℕ
  normal_period_start : ℤ
  normal_period_end : ℤ
  timescale : String
  month : Option ℕ
  dekad : Option ℕ
  season : Option String
  rainfall_normal : Option ℚ
  temp_max_normal : Option ℚ
  temp_min_normal : Option ℚ
  temp_mean_normal : Option ℚ
  sunshine_normal : Option ℚ
  years_with_data : ℕ
  data_completeness_percent : ℚ
deriving DecidableEq, Repr

/-- `calculate_data_quality` from `compute_climate_normals.py`. -/
def calculate_data_quality (yearly_values : List (Option ℚ))
    (expected_years : ℕ) : ℕ × ℚ :=
  let years_with_data := yearly_values.countP Option.isSome
  let completeness : ℚ :=
    if 0 < expected_years then
      ((years_with_data : ℚ) / (expected_years : ℚ)) * 100
    else 0
  (years_with_data, pyRound completeness 1)

/-- The mean half of `calculate_normal_and_std` (`statistics.mean`, rounded to
one decimal; `None` for an empty list). -/
def normalMean (values : List ℚ) : Option ℚ :=
  if values = [] then none
  else some (pyRound (values.sum / (values.length : ℚ)) 1)

/-- One loop iteration of `compute_monthly_normal`: the per-year monthly
aggregates (rainfall sum, Tmax mean, Tmin mean, sunshine sum), `none` when the
year's month has fewer than 21 days of data.  Note a field is also `none`
when every daily value of that field is null, even if the 21-day gate
passes. -/
def monthlyYearValues (daily : List DailyRec) :
    Option ℚ × Option ℚ × Option ℚ × Option ℚ :=
  if 21 ≤ daily.length then
    let rainfall_values := daily.filterMap DailyRec.rainfall_total
    let tmax_values := daily.filterMap DailyRec.temp_max
    let tmin_values := daily.filterMap DailyRec.temp_min
    let sunshine_values := daily.filterMap DailyRec.sunshine_hours
    (if rainfall_values = [] then none else some rainfall_values.sum,
     if tmax_values = [] then none
       else some (tmax_values.sum / (tmax_values.length : ℚ)),
     if tmin_values = [] then none
       else some (tmin_values.sum / (tmin_values.length : ℚ)),
     if sunshine_values = [] then none else some sunshine_values.sum)
  else (none, none, none, none)

/-- The `(tmax + tmin) / 2` pairing over the two yearly lists
(`zip` + both-non-null filter) used for the mean-temperature normal. -/
def zipTempMeans (tmax_yearly tmin_yearly : List (Option ℚ)) : List ℚ :=
  (tmax_yearly.zip tmin_yearly).filterMap
    (fun p =>
      match p.1, p.2 with
      | some a, some b => some ((a + b) / 2)
      | _, _ => none)

/-- `compute_monthly_normal` from `compute_climate_normals.py`.  `data y` is
the list of rows the per-year query for this month returns (the month/leap
date-range construction only shapes that query and is absorbed by the
abstraction).  The gate compares `years_with_data` — computed by
`calculate_data_quality` from the *rainfall* yearly values — against
`min_years_required`. -/
def compute_monthly_normal (data : ℤ → List DailyRec) (station_id : ℕ)
    (month : ℕ) (period_start period_end : ℤ) (min_years_required : ℕ) :
    Option NormalOut :=
  let expected_years : ℕ := (period_end + 1 - period_start).toNat
  let years : List ℤ :=
    (List.range expected_years).map (fun i : ℕ => period_start + (i : ℤ))
  let yv := years.map (fun y => monthlyYearValues (data y))
  let rainfall_yearly := yv.map (fun t => t.1)
  let tmax_yearly := yv.map (fun t => t.2.1)
  let tmin_yearly := yv.map (fun t => t.2.2.1)
  let sunshine_yearly := yv.map (fun t => t.2.2.2)
  let quality := calculate_data_quality rainfall_yearly expected_years
  if quality.1 < min_years_required then none
  else
    some {
      station_id := station_id
      normal_period_start := period_start
      normal_period_end := period_end
      timescale := "monthly"
      month := some month
      dekad := none
      season := none
      rainfall_normal := normalMean (rainfall_yearly.filterMap id)
      temp_max_normal := normalMean (tmax_yearly.filterMap id)
      temp_min_normal := normalMean (tmin_yearly.filterMap id)
      temp_mean_normal := normalMean (zipTempMeans tmax_yearly tmin_yearly)
      sunshine_normal := normalMean (sunshine_yearly.filterMap id)
      years_with_data := quality.1
      data_completeness_percent := quality.2
    }

/-- The lazy `get_or_compute` pattern shared by the five CRUD classes in
`app/crud/products.py` (weekly/monthly/dekadal/seasonal/annual).  The
persisted table is modelled as a map from the timescale's natural key to an
optional stored summary; `compute` abstracts the corresponding
`compute_*_summary` call (returning `none` on insufficient data).  Returns
the updated store and the response. -/
def get_or_compute {K : Type} [DecidableEq K] {S : Type}
    (store : K → Option S) (compute : K → Option S) (k : K) :
    (K → Option S) × Option S :=
  match store k with
  | some cached => (store, some cached)
  | none =>
    match compute k with
    | none => (store, none)
    | some s => (fun q => if q = k then some s else store q, some s)

/-- Dry-day test of the onset false-start scan (`rainfall < 1.0`; a missing
day is conservatively treated as dry, as in `detect_onset`). -/
def isDryDay (f : ℤ → Option ℚ) (d : ℤ) : Bool :=
  match f d with
  | some r => decide (r < 1)
  | none => true

/-- The false-start dry-spell scan inside `detect_onset`: walk `n` days from
day `b` keeping the consecutive-dry-day counter `c`, returning `true` as soon
as the counter reaches 7 (`false_start_dry_spell_days`, the Python default
used at every call site). -/
def drySpellScan (f : ℤ → Option ℚ) : ℕ → ℤ → ℕ → Bool
  | 0, _, _ => false
  | n + 1, b, c =>
    if isDryDay f b then
      (if 7 ≤ c + 1 then true else drySpellScan f n (b + 1) (c + 1))
    else drySpellScan f n (b + 1) 0

/-- The 3-day accumulation at a candidate onset day (`onset_days = 3`): the
sum if all three days are present in the rainfall dictionary, else `none`
(the source marks the window invalid on the first missing day). -/
def threeDaySum (f : ℤ → Option ℚ) (d : ℤ) : Option ℚ :=
  match f d, f (d + 1), f (d + 2) with
  | some a, some b, some c => some (a + b + c)
  | _, _, _ => none

/-- One candidate test of `detect_onset` (defaults: 20mm over 3 days, then no
7-day dry spell within the following 20 days). -/
def onsetCandidate (f : ℤ → Option ℚ) (d : ℤ) : Bool :=
  match threeDaySum f d with
  | some s => decide (20 ≤ s) && ! drySpellScan f 20 (d + 3) 0
  | none => false

/-- The scanning loop of `detect_onset`: try each day from `d` on, `n` days in
total. -/
def detectOnsetAux (f : ℤ → Option ℚ) : ℕ → ℤ → Option ℤ
  | 0, _ => none
  | n + 1, d => if onsetCandidate f d then some d else detectOnsetAux f n (d + 1)

/-- `detect_onset` from `agro.py` with its default thresholds; days are day
numbers (`ℤ`) and `f` is the `{date: rainfall}` dictionary built from the
input series.  The `while current_date <= end_search_date` loop runs
`e + 1 - s` times. -/
def detect_onset (f : ℤ → Option ℚ) (s e : ℤ) : Option ℤ :=
  detectOnsetAux f (e + 1 - s).toNat s

/-- Cumulative rainfall over `n` consecutive days from day `d`; `none` if any
day is missing (matching the `data_available` break in `detect_cessation`). -/
def windowSum (f : ℤ → Option ℚ) : ℕ → ℤ → Option ℚ
  | 0, _ => some 0
  | n + 1, d =>
    match f d with
    | some r => (windowSum f n (d + 1)).map (fun t => r + t)
    | none => none

/-- The 20-day dry-window test of `detect_cessation` (defaults:
`cessation_days = 20`, `cessation_threshold_mm = 10`). -/
def cessationWindow (f : ℤ → Option ℚ) (w : ℤ) : Bool :=
  match windowSum f 20 w with
  | some s => decide (s < 10)
  | none => false

/-- The backward search of `detect_cessation` for the last day with rainfall
at least 1mm, from day `d` down to `lo` (the onset date), with exact fuel. -/
def lastRainyFrom (f : ℤ → Option ℚ) (lo : ℤ) : ℕ → ℤ → Option ℤ
  | 0, _ => none
  | n + 1, d =>
    if lo ≤ d then
      match f d with
      | some r => if 1 ≤ r then some d else lastRainyFrom f lo n (d - 1)
      | none => lastRainyFrom f lo n (d - 1)
    else none

/-- The value `detect_cessation` reports once the dry window starting at `w`
is found: the last rainy day in `[onset, w-1]`, else `w - 1`. -/
def cessResult (f : ℤ → Option ℚ) (onset w : ℤ) : ℤ :=
  match lastRainyFrom f onset (w - onset).toNat (w - 1) with
  | some r => r
  | none => w - 1

/-- The scanning loop of `detect_cessation`. -/
def detectCessationAux (f : ℤ → Option ℚ) (onset : ℤ) : ℕ → ℤ → Option ℤ
  | 0, _ => none
  | n + 1, w =>
    if cessationWindow f w then some (cessResult f onset w)
    else detectCessationAux f onset n (w + 1)

/-- `detect_cessation` from `agro.py` with its default thresholds; the scan
starts the day after the onset and runs while `current_date <= e`. -/
def detect_cessation (f : ℤ → Option ℚ) (onset_date e : ℤ) : Option ℤ :=
  detectCessationAux f onset_date (e - onset_date).toNat (onset_date + 1)

/-- Abstraction of the float transcendentals used by the Hargreaves code.
The fields give the *values* of `math.sin`, `math.cos`, `math.tan`,
`math.acos`, `math.sqrt` and `math.pi`; the domain checks under which the
Python functions raise `math domain error` are embedded explicitly in the
functions below. -/
structure FloatOps where
  sinv : ℚ → ℚ
  cosv : ℚ → ℚ
  tanv : ℚ → ℚ
  acosv : ℚ → ℚ
  sqrtv : ℚ → ℚ
  piv : ℚ

/-- `calculate_extraterrestrial_radiation` from `agro.py`.  `math.acos`
raises `math domain error` outside `[-1, 1]`; that is the only fallible
operation here. -/
def calculate_extraterrestrial_radiation (ops : FloatOps) (latitude : ℚ)
    (julian_day : ℕ) : Except String ℚ :=
  let lat_rad := latitude * ops.piv / 180
  let declination := 409/1000 * ops.sinv ((2 * ops.piv / 365) * (julian_day : ℚ) - 139/100)
  let acos_arg := -(ops.tanv lat_rad) * ops.tanv declination
  if acos_arg < -1 ∨ 1 < acos_arg then Except.error ("math domain error")
  else
    let ws := ops.acosv acos_arg
    let dr := 1 + 33/1000 * ops.cosv (2 * ops.piv * (julian_day : ℚ) / 365)
    let gsc : ℚ := 820/10000
    Except.ok ((24 * 60 / ops.piv) * gsc * dr *
      (ws * ops.sinv lat_rad * ops.sinv declination +
        ops.cosv lat_rad * ops.cosv declination * ops.sinv ws))

/-- `calculate_et0_hargreaves` from `agro.py`.  As in the source, `Ra` is
computed *before* the square root, so an `acos` domain error takes
precedence; `math.sqrt(temp_diff)` raises `math domain error` whenever
`temp_max < temp_min`. -/
def calculate_et0_hargreaves (ops : FloatOps) (temp_max temp_min latitude : ℚ)
    (julian_day : ℕ) : Except String ℚ :=
  let temp_mean := (temp_max + temp_min) / 2
  let temp_diff := temp_max - temp_min
  match calculate_extraterrestrial_radiation ops latitude julian_day with
  | Except.error e => Except.error e
  | Except.ok ra =>
    if temp_diff < 0 then Except.error ("math domain error")
    else
      Except.ok (max 0 (23/10000 * (temp_mean + 178/10) *
        ops.sqrtv temp_diff * ra * 408/1000))

/-- One entry of the ET0 series. -/
structure Et0Entry where
  observation_date : SDate
  et0_mm : ℚ
  temp_max : ℚ
  temp_min : ℚ
deriving Repr

/-- Python loop semantics over `Except`: the first raised exception
propagates out of the whole computation. -/
def mapExcept {α β : Type} (g : α → Except String β) :
    List α → Except String (List β)
  | [] => Except.ok []
  | a :: t =>
    match g a with
    | Except.error e => Except.error e
    | Except.ok b =>
      match mapExcept g t with
      | Except.error e => Except.error e
      | Except.ok bs => Except.ok (b :: bs)

/-- `compute_et0_series` from `agro.py`.  `latitude` abstracts the station
lookup (`none`: station missing or latitude null, the source returns `[]`);
the query keeps only rows with both temperatures non-null
(`temp_max.isnot(None)`, `temp_min.isnot(None)`), modelled by `filterMap`.
No filtering on `temp_max >= temp_min` is performed, so a record violating it
raises out of the whole series computation. -/
def compute_et0_series (ops : FloatOps) (latitude : Option ℚ)
    (daily : List DailyRec) : Except String (List Et0Entry) :=
  match latitude with
  | none => Except.ok []
  | some lat =>
    mapExcept
      (fun t =>
        match calculate_et0_hargreaves ops t.2.1 t.2.2 lat (dayOfYear t.1) with
        | Except.error e => Except.error e
        | Except.ok v =>
          Except.ok ⟨t.1, pyRound v 2, t.2.1, t.2.2⟩)
      (daily.filterMap (fun r =>
        match r.temp_max, r.temp_min with
        | some a, some b => some (r.date, a, b)
        | _, _ => none))

/-- Spec-side onset condition, following the claim wording: the 3 days from
`d` have (present) rainfall summing to at least 20mm, and no run of 7
consecutive dry days (below 1mm, a missing day counting as dry per the spec's
conservative rule) starts within the 20 days following the 3-day window. -/
def onsetSpec (f : ℤ → Option ℚ) (d : ℤ) : Prop :=
  (∃ a b c, f d = some a ∧ f (d + 1) = some b ∧ f (d + 2) = some c ∧
    20 ≤ a + b + c) ∧
  ¬ ∃ j : ℤ, 0 ≤ j ∧ j + 7 ≤ 20 ∧
      ∀ k : ℕ, k < 7 → ∀ r, f (d + 3 + j + (k : ℤ)) = some r → r < 1

/-- Spec-side rainy-day condition (rainfall recorded and at least 1mm). -/
def rainyP (f : ℤ → Option ℚ) (x : ℤ) : Prop :=
  ∃ q, f x = some q ∧ 1 ≤ q

/-- Spec-side dry-window condition of cessation: the 20 days from `w` are all
recorded and their cumulative rainfall is below 10mm. -/
def dryWindowSpec (f : ℤ → Option ℚ) (w : ℤ) : Prop :=
  ∃ g : ℕ → ℚ, (∀ k : ℕ, k < 20 → f (w + (k : ℤ)) = some (g k)) ∧
    (Finset.range 20).sum g < 10

/-- Concrete February 2023 fixture for the rounding counterexample: one day
with 0.13mm rainfall and 27 further days with data but null rainfall. -/
def monthDataRounding : List DailyRec :=
  ⟨⟨2023, 2, 1⟩, some (13/100), none, none, none, none, none⟩ ::
    List.replicate 27 ⟨⟨2023, 2, 2⟩, none, none, none, none, none, none⟩

/-- Concrete February 2023 fixture with full data: 28 days of 1mm rainfall. -/
def monthDataFull : List DailyRec :=
  List.replicate 28 ⟨⟨2023, 2, 1⟩, some 1, none, none, none, none, none⟩

/-- Concrete 30-year fixture for the climate-normal counterexample: 19 years
with 21 rainy records, one year (2010) with 21 records whose rainfall is
null, and 10 years with no data. -/
def normalYearData (y : ℤ) : List DailyRec :=
  if 1991 ≤ y ∧ y ≤ 2009 then
    List.replicate 21 ⟨⟨y, 1, 1⟩, some 5, none, none, none, none, none⟩
  else if y = 2010 then
    List.replicate 21 ⟨⟨y, 1, 1⟩, none, some 30, some 22, none, none, none⟩
  else []

-- THEOREMS

theorem is_leap_year_iff (y : ℤ) : is_leap_year y = true ↔ leapSpec y := by
  simp [is_leap_year, leapSpec]

theorem if_leap_congr {α : Type} (z : ℤ) (a b : α) :
    (if is_leap_year z then a else b) = (if leapSpec z then a else b) := by
  by_cases hl : leapSpec z
  · simp [hl, (is_leap_year_iff z).mpr hl]
  · have hf : is_leap_year z = false := by
      cases h : is_leap_year z
      · rfl
      · exact absurd ((is_leap_year_iff z).mp h) hl
    simp [hl, hf]

theorem days_in_month_eq (y : ℤ) (m : ℕ) :
    days_in_month y m = monthLenSpec y m := by
  unfold days_in_month monthLenSpec
  rw [if_leap_congr]

/-- Claim C6: for every year `y`, the DJF interval is
[Dec 1 `y`, Feb 28 `y+1`] with Feb 29 when `y+1` is a (Gregorian) leap year;
a date in January or February of year `y` belongs to DJF season-year `y-1`;
and the DJF 2024 season spans Dec 1 2024 through Feb 28 2025.  Both the date
resolver `get_season_for_date` and the interval used by
`compute_seasonal_summary` (`season_date_range`) are covered. -/
theorem djf_season_interval (y : ℤ) (dday : ℕ) :
    get_season_for_date ⟨y, 12, dday⟩
        = ("DJF", y, ⟨y, 12, 1⟩, ⟨y + 1, 2, febEndSpec (y + 1)⟩)
  ∧ get_season_for_date ⟨y, 1, dday⟩
        = ("DJF", y - 1, ⟨y - 1, 12, 1⟩, ⟨y, 2, febEndSpec y⟩)
  ∧ get_season_for_date ⟨y, 2, dday⟩
        = ("DJF", y - 1, ⟨y - 1, 12, 1⟩, ⟨y, 2, febEndSpec y⟩)
  ∧ season_date_range y "DJF"
        = some (⟨y, 12, 1⟩, ⟨y + 1, 2, febEndSpec (y + 1)⟩,
            if leapSpec (y + 1) then 91 else 90)
  ∧ season_date_range 2024 "DJF" = some (⟨2024, 12, 1⟩, ⟨2025, 2, 28⟩, 90) := by
  refine ⟨?_, ?_, ?_, ?_, by decide⟩
  · simp [get_season_for_date, febEndSpec, if_leap_congr]
  · simp [get_season_for_date, febEndSpec, if_leap_congr]
  · simp [get_season_for_date, febEndSpec, if_leap_congr]
  · simp [season_date_range, febEndSpec, if_leap_congr]

/-- Claim C7: for every year and valid month, dekad 1 is days 1-10, dekad 2
is days 11-20, and dekad 3 runs from day 21 to the actual last day of the
month (28, 29, 30 or 31; Feb 28 in a non-leap year, Feb 29 in a leap year),
both in `get_dekad_for_date` and in the range used by
`compute_dekadal_summary`. -/
theorem dekad_three_interval (y : ℤ) (m dday : ℕ) (hm1 : 1 ≤ m)
    (hm2 : m ≤ 12) :
    dekad_date_range y m 1 = (⟨y, m, 1⟩, ⟨y, m, 10⟩)
  ∧ dekad_date_range y m 2 = (⟨y, m, 11⟩, ⟨y, m, 20⟩)
  ∧ dekad_date_range y m 3 = (⟨y, m, 21⟩, ⟨y, m, monthLenSpec y m⟩)
  ∧ (monthLenSpec y m = 28 ∨ monthLenSpec y m = 29 ∨ monthLenSpec y m = 30
      ∨ monthLenSpec y m = 31)
  ∧ (m = 2 → monthLenSpec y m = (if leapSpec y then 29 else 28))
  ∧ (21 ≤ dday →
      get_dekad_for_date ⟨y, m, dday⟩
        = (y, m, 3, ⟨y, m, 21⟩, ⟨y, m, monthLenSpec y m⟩))
  ∧ (1 ≤ dday → dday ≤ 10 →
      get_dekad_for_date ⟨y, m, dday⟩ = (y, m, 1, ⟨y, m, 1⟩, ⟨y, m, 10⟩))
  ∧ (11 ≤ dday → dday ≤ 20 →
      get_dekad_for_date ⟨y, m, dday⟩ = (y, m, 2, ⟨y, m, 11⟩, ⟨y, m, 20⟩)) := by
  refine ⟨by simp [dekad_date_range], by simp [dekad_date_range], ?_, ?_, ?_,
    ?_, ?_, ?_⟩
  · simp [dekad_date_range, days_in_month_eq]
  · unfold monthLenSpec
    by_cases h2 : m = 2
    · by_cases hl : leapSpec y <;> simp [h2, hl]
    · by_cases h30 : m = 4 ∨ m = 6 ∨ m = 9 ∨ m = 11 <;> simp [h2, h30]
  · intro h2
    simp [monthLenSpec, h2]
  · intro hd
    have h10 : ¬ dday ≤ 10 := by omega
    have h20 : ¬ dday ≤ 20 := by omega
    simp [get_dekad_for_date, h10, h20, days_in_month_eq]
  · intro _ hd
    simp [get_dekad_for_date, hd]
  · intro hd1 hd2
    have h10 : ¬ dday ≤ 10 := by omega
    simp [get_dekad_for_date, h10, hd2]

theorem dekad_three_interval_witness :
    dekad_date_range 2023 2 3 = (⟨2023, 2, 21⟩, ⟨2023, 2, 28⟩)
  ∧ dekad_date_range 2024 2 3 = (⟨2024, 2, 21⟩, ⟨2024, 2, 29⟩) := by
  have h1 := dekad_three_interval 2023 2 25 (by norm_num) (by norm_num)
  have h2 := dekad_three_interval 2024 2 25 (by norm_num) (by norm_num)
  exact ⟨h1.2.2.1.trans (by decide), h2.2.2.1.trans (by decide)⟩

/-- Claim C8, counterexample: the claimed identity fails for
`Tupper = 0` (with `Tbase = -5 ≤ 0 = Tupper`): the Python guard
`if upper_temp` treats the threshold `0.0` as absent, so `Tmax` is not capped
and `calculate_gdd` returns 7.5 where the claimed formula gives 2.5. -/
theorem gdd_formula_counterexample :
    ((-5 : ℚ) ≤ 0)
  ∧ calculate_gdd 10 (-10) (-5) (some 0) "modified" = 15/2
  ∧ max 0 ((min (10 : ℚ) 0 + max (-10 : ℚ) (-5)) / 2 - (-5)) = 5/2
  ∧ (15/2 : ℚ) ≠ 5/2 := by
  refine ⟨by norm_num, by norm_num [calculate_gdd, max_def, min_def],
    by norm_num [max_def, min_def], by norm_num⟩

/-- Claim C8 as amended: for crop thresholds `Tbase ≤ Tupper` with
`Tupper ≠ 0` (the Python truthiness guard `if upper_temp` skips the cap when
the upper threshold is exactly 0), the modified-method daily degree-day value
equals `max(0, ((min(Tmax, Tupper) + max(Tmin, Tbase)) / 2) - Tbase)`. -/
theorem gdd_modified_formula (tmax tmin base u : ℚ) (h1 : base ≤ u)
    (h2 : u ≠ 0) :
    calculate_gdd tmax tmin base (some u) "modified"
      = max 0 ((min tmax u + max tmin base) / 2 - base) := by
  simp [calculate_gdd, h2]

theorem gdd_modified_formula_witness :
    ((10 : ℚ) ≤ 30) ∧ ((30 : ℚ) ≠ 0)
  ∧ calculate_gdd 32 22 10 (some 30) "modified" = 16 := by
  refine ⟨by norm_num, by norm_num, ?_⟩
  rw [gdd_modified_formula 32 22 10 30 (by norm_num) (by norm_num)]
  rw [min_def, max_def]
  norm_num

/-- Claim C9: `get_or_compute` returns a cached summary unchanged on a hit;
on a miss it persists a successfully computed summary under its key (leaving
every other key untouched) and returns it; an insufficient-data outcome
(`compute k = none`) returns `none` and persists nothing; and a key whose
aggregation is invalid and which is absent from the store stays absent, so
the store never acquires a summary for an invalid period. -/
theorem get_or_compute_cache_behaviour {K : Type} [DecidableEq K] {S : Type}
    (store compute : K → Option S) (k : K) :
    (∀ c, store k = some c → get_or_compute store compute k = (store, some c))
  ∧ (store k = none → compute k = none →
      get_or_compute store compute k = (store, none))
  ∧ (∀ s, store k = none → compute k = some s →
      (get_or_compute store compute k).2 = some s
    ∧ (get_or_compute store compute k).1 k = some s
    ∧ ∀ q, q ≠ k → (get_or_compute store compute k).1 q = store q)
  ∧ (∀ q, compute q = none → store q = none →
      (get_or_compute store compute k).1 q = none) := by
  refine ⟨?_, ?_, ?_, ?_⟩
  · intro c hc
    simp [get_or_compute, hc]
  · intro hs hc
    simp [get_or_compute, hs, hc]
  · intro s hs hc
    refine ⟨by simp [get_or_compute, hs, hc], by simp [get_or_compute, hs, hc],
      ?_⟩
    intro q hq
    simp [get_or_compute, hs, hc, hq]
  · intro q hcq hsq
    rcases hsk : store k with _ | c
    · rcases hck : compute k with _ | s
      · simp [get_or_compute, hsk, hck, hsq]
      · by_cases hqk : q = k
        · subst hqk
          rw [hcq] at hck
          cases hck
        · simp [get_or_compute, hsk, hck, hqk, hsq]
    · simp [get_or_compute, hsk, hsq]

theorem get_or_compute_cache_behaviour_witness :
    (get_or_compute (fun _ : ℕ => (none : Option ℚ))
        (fun k => if k = 0 then some 1 else none) 0).2 = some 1
  ∧ (get_or_compute (fun _ : ℕ => (none : Option ℚ))
        (fun k => if k = 0 then some 1 else none) 0).1 0 = some 1 := by
  have h := (get_or_compute_cache_behaviour (fun _ : ℕ => (none : Option ℚ))
    (fun k => if k = 0 then some 1 else none) 0).2.2.1 1 rfl (by simp)
  exact ⟨h.1, h.2.1⟩

/-- Claim C1 as amended: every aggregation returns `none` exactly when the
day count is below its completeness gate — 71% of 7 days weekly, 70% of the
month's calendar length monthly, 70% of the season's calendar length
seasonal, 80% of the year's calendar length annual — but the dekadal gate is
a *fixed* `len < 7` test, not 70% of the dekad's actual length (8-11 days).
The final conjunct records that the seasonal expected-day constants are the
true calendar lengths. -/
theorem completeness_gates :
    (∀ (data : List DailyRec) (sid : ℕ) (y : ℤ) (w : ℕ),
        (compute_weekly_summary data sid y w).isSome = true ↔
          ¬ ((data.length : ℚ) / 7 * 100 < 71))
  ∧ (∀ (data : List DailyRec) (sid : ℕ) (y : ℤ) (m : ℕ)
        (normal : Option NormalRec), 1 ≤ m → m ≤ 12 →
        ((compute_monthly_summary data sid y m normal).isSome = true ↔
          ¬ ((data.length : ℚ) / (monthLenSpec y m : ℚ) * 100 < 70)))
  ∧ (∀ (data : List DailyRec) (sid : ℕ) (y : ℤ) (m dk : ℕ)
        (normal : Option NormalRec),
        (compute_dekadal_summary data sid y m dk normal).isSome = true ↔
          7 ≤ data.length)
  ∧ (∀ (data : List DailyRec) (sid : ℕ) (y : ℤ) (normal : Option NormalRec)
        (oc : Option SDate × Option SDate),
        ((compute_seasonal_summary data sid y "MAM" normal oc).isSome = true ↔
          ¬ ((data.length : ℚ) / 92 * 100 < 70))
      ∧ ((compute_seasonal_summary data sid y "JJA" normal oc).isSome = true ↔
          ¬ ((data.length : ℚ) / 92 * 100 < 70))
      ∧ ((compute_seasonal_summary data sid y "SON" normal oc).isSome = true ↔
          ¬ ((data.length : ℚ) / 91 * 100 < 70))
      ∧ ((compute_seasonal_summary data sid y "DJF" normal oc).isSome = true ↔
          ¬ ((data.length : ℚ) / (((if leapSpec (y + 1) then 91 else 90 : ℕ)) : ℚ)
              * 100 < 70)))
  ∧ (∀ (data : List DailyRec) (sid : ℕ) (y : ℤ) (normal : Option NormalRec),
        (compute_annual_summary data sid y normal).isSome = true ↔
          ¬ ((data.length : ℚ) / (((if leapSpec y then 366 else 365 : ℕ)) : ℚ)
              * 100 < 80))
  ∧ (∀ y : ℤ,
        monthLenSpec y 3 + monthLenSpec y 4 + monthLenSpec y 5 = 92
      ∧ monthLenSpec y 6 + monthLenSpec y 7 + monthLenSpec y 8 = 92
      ∧ monthLenSpec y 9 + monthLenSpec y 10 + monthLenSpec y 11 = 91
      ∧ monthLenSpec y 12 + monthLenSpec (y + 1) 1 + monthLenSpec (y + 1) 2
          = (if leapSpec (y + 1) then 91 else 90)) := by
  refine ⟨?_, ?_, ?_, ?_, ?_, ?_⟩
  · intro data sid y w
    simp only [compute_weekly_summary]
    by_cases h : data.length < 5
    · rw [if_pos h]
      refine iff_of_false (by simp) (not_not.mpr ?_)
      have h4 : (data.length : ℚ) ≤ 4 := by
        exact_mod_cast Nat.lt_succ_iff.mp h
      rw [div_mul_eq_mul_div, div_lt_iff₀ (by norm_num : (0:ℚ) < 7)]
      nlinarith
    · rw [if_neg h]
      refine iff_of_true (by simp) ?_
      have h5 : (5 : ℚ) ≤ (data.length : ℚ) := by
        exact_mod_cast Nat.not_lt.mp h
      intro hcon
      rw [div_mul_eq_mul_div, div_lt_iff₀ (by norm_num : (0:ℚ) < 7)] at hcon
      nlinarith
  · intro data sid y m normal hm1 hm2
    simp only [compute_monthly_summary]
    rw [days_in_month_eq]
    by_cases h : (data.length : ℚ) / (monthLenSpec y m : ℚ) * 100 < 70
    · rw [if_pos h]
      exact iff_of_false (by simp) (not_not.mpr h)
    · rw [if_neg h]
      exact iff_of_true (by simp) h
  · intro data sid y m dk normal
    simp only [compute_dekadal_summary]
    by_cases h : data.length < 7
    · rw [if_pos h]
      exact iff_of_false (by simp) (by omega)
    · rw [if_neg h]
      exact iff_of_true (by simp) (by omega)
  · intro data sid y normal oc
    have hmam : season_date_range y "MAM" = some (⟨y, 3, 1⟩, ⟨y, 5, 31⟩, 92) :=
      rfl
    have hjja : season_date_range y "JJA" = some (⟨y, 6, 1⟩, ⟨y, 8, 31⟩, 92) :=
      rfl
    have hson : season_date_range y "SON" = some (⟨y, 9, 1⟩, ⟨y, 11, 30⟩, 91) :=
      rfl
    have hdjf : season_date_range y "DJF"
        = some (⟨y, 12, 1⟩,
            ⟨y + 1, 2, if is_leap_year (y + 1) then 29 else 28⟩,
            if is_leap_year (y + 1) then 91 else 90) := rfl
    refine ⟨?_, ?_, ?_, ?_⟩
    · simp only [compute_seasonal_summary, hmam]
      by_cases h : ((data.length : ℚ) / ((92 : ℕ) : ℚ)) * 100 < 70
      · rw [if_pos h]
        refine iff_of_false (by simp) (not_not.mpr ?_)
        push_cast at h
        exact h
      · rw [if_neg h]
        refine iff_of_true (by simp) ?_
        push_cast at h
        exact h
    · simp only [compute_seasonal_summary, hjja]
      by_cases h : ((data.length : ℚ) / ((92 : ℕ) : ℚ)) * 100 < 70
      · rw [if_pos h]
        refine iff_of_false (by simp) (not_not.mpr ?_)
        push_cast at h
        exact h
      · rw [if_neg h]
        refine iff_of_true (by simp) ?_
        push_cast at h
        exact h
    · simp only [compute_seasonal_summary, hson]
      by_cases h : ((data.length : ℚ) / ((91 : ℕ) : ℚ)) * 100 < 70
      · rw [if_pos h]
        refine iff_of_false (by simp) (not_not.mpr ?_)
        push_cast at h
        exact h
      · rw [if_neg h]
        refine iff_of_true (by simp) ?_
        push_cast at h
        exact h
    · simp only [compute_seasonal_summary, hdjf]
      rw [if_leap_congr (y + 1) (91 : ℕ) 90]
      by_cases h : ((data.length : ℚ)
          / (((if leapSpec (y + 1) then 91 else 90 : ℕ)) : ℚ)) * 100 < 70
      · rw [if_pos h]
        exact iff_of_false (by simp) (not_not.mpr h)
      · rw [if_neg h]
        exact iff_of_true (by simp) h
  · intro data sid y normal
    simp only [compute_annual_summary]
    rw [if_leap_congr y (366 : ℕ) 365]
    by_cases h : ((data.length : ℚ)
        / (((if leapSpec y then 366 else 365 : ℕ)) : ℚ)) * 100 < 80
    · rw [if_pos h]
      exact iff_of_false (by simp) (not_not.mpr h)
    · rw [if_neg h]
      exact iff_of_true (by simp) h
  · intro y
    refine ⟨by simp [monthLenSpec], by simp [monthLenSpec],
      by simp [monthLenSpec], ?_⟩
    by_cases hl : leapSpec (y + 1) <;> simp [monthLenSpec, hl]

/-- Claim C1, counterexample to the dekadal part: dekad 3 of January 2023
spans 11 calendar days (Jan 21-31), yet 7 days of data — 63.6%, below the
claimed 70% of the dekad's actual length — already produce a summary, because
the source gate is the fixed test `len(daily_data) < 7`. -/
theorem completeness_gates_counterexample :
    (compute_dekadal_summary
        (List.replicate 7 ⟨⟨2023, 1, 21⟩, some 5, none, none, none, none, none⟩)
        1 2023 1 3 none).isSome = true
  ∧ ((List.replicate 7
        (⟨⟨2023, 1, 21⟩, some 5, none, none, none, none, none⟩ : DailyRec)).length : ℚ)
        / 11 * 100 < 70
  ∧ dekad_date_range 2023 1 3 = (⟨2023, 1, 21⟩, ⟨2023, 1, 31⟩) := by
  refine ⟨by decide, ?_, by decide⟩
  rw [List.length_replicate]
  norm_num

theorem completeness_gates_witness :
    (compute_monthly_summary
        (List.replicate 28 ⟨⟨2023, 2, 1⟩, some 1, none, none, none, none, none⟩)
        1 2023 2 none).isSome = true := by
  have h := completeness_gates.2.1
    (List.replicate 28 ⟨⟨2023, 2, 1⟩, some 1, none, none, none, none, none⟩)
    1 2023 2 none (by norm_num) (by norm_num)
  rw [h, List.length_replicate]
  have hm : monthLenSpec 2023 2 = 28 := by decide
  rw [hm]
  norm_num

/-- Claim C2 as amended: for every valid summary, `rainfall_total` is the
arithmetic SUM of the non-null daily rainfall values of the period — never an
average — but it is stored *rounded to one decimal place* by the monthly,
dekadal, seasonal and annual aggregations (Python `round(sum(...), 1)`); only
the weekly aggregation stores the unrounded exact sum. -/
theorem rainfall_total_sum :
    (∀ (data : List DailyRec) (sid : ℕ) (y : ℤ) (w : ℕ) (out : WeeklyOut),
        compute_weekly_summary data sid y w = some out →
        out.rainfall_total =
          (if data.filterMap DailyRec.rainfall_total = [] then none
           else some (data.filterMap DailyRec.rainfall_total).sum))
  ∧ (∀ (data : List DailyRec) (sid : ℕ) (y : ℤ) (m : ℕ)
        (normal : Option NormalRec) (out : MonthlyOut),
        compute_monthly_summary data sid y m normal = some out →
        out.rainfall_total =
          (if data.filterMap DailyRec.rainfall_total = [] then none
           else some (pyRound (data.filterMap DailyRec.rainfall_total).sum 1)))
  ∧ (∀ (data : List DailyRec) (sid : ℕ) (y : ℤ) (m dk : ℕ)
        (normal : Option NormalRec) (out : DekadalOut),
        compute_dekadal_summary data sid y m dk normal = some out →
        out.rainfall_total =
          (if data.filterMap DailyRec.rainfall_total = [] then none
           else some (pyRound (data.filterMap DailyRec.rainfall_total).sum 1)))
  ∧ (∀ (data : List DailyRec) (sid : ℕ) (y : ℤ) (season : String)
        (normal : Option NormalRec) (oc : Option SDate × Option SDate)
        (out : SeasonalOut),
        compute_seasonal_summary data sid y season normal oc = some out →
        out.rainfall_total =
          (if data.filterMap DailyRec.rainfall_total = [] then none
           else some (pyRound (data.filterMap DailyRec.rainfall_total).sum 1)))
  ∧ (∀ (data : List DailyRec) (sid : ℕ) (y : ℤ) (normal : Option NormalRec)
        (out : AnnualOut),
        compute_annual_summary data sid y normal = some out →
        out.rainfall_total =
          (if data.filterMap DailyRec.rainfall_total = [] then none
           else some (pyRound (data.filterMap DailyRec.rainfall_total).sum 1))) := by
  refine ⟨?_, ?_, ?_, ?_, ?_⟩
  · intro data sid y w out h
    simp only [compute_weekly_summary] at h
    by_cases hg : data.length < 5
    · rw [if_pos hg] at h
      exact absurd h (by simp)
    · rw [if_neg hg] at h
      injection h with h2
      subst h2
      rfl
  · intro data sid y m normal out h
    simp only [compute_monthly_summary] at h
    by_cases hg : ((data.length : ℚ) / (days_in_month y m : ℚ)) * 100 < 70
    · rw [if_pos hg] at h
      exact absurd h (by simp)
    · rw [if_neg hg] at h
      injection h with h2
      subst h2
      rfl
  · intro data sid y m dk normal out h
    simp only [compute_dekadal_summary] at h
    by_cases hg : data.length < 7
    · rw [if_pos hg] at h
      exact absurd h (by simp)
    · rw [if_neg hg] at h
      injection h with h2
      subst h2
      rfl
  · intro data sid y season normal oc out h
    unfold compute_seasonal_summary at h
    rcases hr : season_date_range y season with _ | ⟨sd, ed, exp⟩
    · rw [hr] at h
      exact absurd h (by simp)
    · rw [hr] at h
      dsimp only at h
      by_cases hg : ((data.length : ℚ) / (exp : ℚ)) * 100 < 70
      · rw [if_pos hg] at h
        exact absurd h (by simp)
      · rw [if_neg hg] at h
        injection h with h2
        subst h2
        rfl
  · intro data sid y normal out h
    simp only [compute_annual_summary] at h
    by_cases hg : ((data.length : ℚ)
        / ((if is_leap_year y then 366 else 365 : ℕ) : ℚ)) * 100 < 80
    · rw [if_pos hg] at h
      exact absurd h (by simp)
    · rw [if_neg hg] at h
      injection h with h2
      subst h2
      rfl

theorem monthly_rainfall_total_proj (data : List DailyRec) (sid : ℕ) (y : ℤ)
    (m : ℕ) (normal : Option NormalRec)
    (h : ¬ (((data.length : ℚ) / (days_in_month y m : ℚ)) * 100 < 70)) :
    (compute_monthly_summary data sid y m normal).map MonthlyOut.rainfall_total
      = some (if data.filterMap DailyRec.rainfall_total = [] then none
          else some (pyRound (data.filterMap DailyRec.rainfall_total).sum 1)) := by
  simp only [compute_monthly_summary]
  rw [if_neg h]
  rfl

/-- Claim C2, counterexample: February 2023 with 28 days of data, one of
0.13mm rainfall and 27 with null rainfall — a valid month (100%
completeness) whose stored `rainfall_total` is `round(0.13, 1) = 0.1`, not
the exact sum 0.13; `rainfall_total` is therefore not the exact arithmetic
sum. -/
theorem rainfall_total_sum_counterexample :
    (compute_monthly_summary monthDataRounding 1 2023 2 none).map
        MonthlyOut.rainfall_total = some (some (1/10))
  ∧ (monthDataRounding.filterMap DailyRec.rainfall_total).sum = 13/100
  ∧ (1/10 : ℚ) ≠ 13/100 := by
  have hfm : monthDataRounding.filterMap DailyRec.rainfall_total = [13/100] := by
    simp [monthDataRounding]
  have hgate : ¬ (((monthDataRounding.length : ℚ)
      / (days_in_month 2023 2 : ℚ)) * 100 < 70) := by
    have hlen : monthDataRounding.length = 28 := by simp [monthDataRounding]
    have hdm : days_in_month 2023 2 = 28 := by decide
    rw [hlen, hdm]
    norm_num
  refine ⟨?_, ?_, by norm_num⟩
  · rw [monthly_rainfall_total_proj monthDataRounding 1 2023 2 none hgate, hfm]
    norm_num [pyRound, roundHalfEven]
  · rw [hfm]
    norm_num

theorem rainfall_total_sum_witness :
    (compute_monthly_summary monthDataFull 1 2023 2 none).map
        MonthlyOut.rainfall_total = some (some 28) := by
  have hgate : ¬ (((monthDataFull.length : ℚ)
      / (days_in_month 2023 2 : ℚ)) * 100 < 70) := by
    have hlen : monthDataFull.length = 28 := by simp [monthDataFull]
    have hdm : days_in_month 2023 2 = 28 := by decide
    rw [hlen, hdm]
    norm_num
  have hs : (compute_monthly_summary monthDataFull 1 2023 2 none).isSome
      = true := by
    simp only [compute_monthly_summary]
    rw [if_neg hgate]
    rfl
  obtain ⟨out, hout⟩ := Option.isSome_iff_exists.mp hs
  have h := rainfall_total_sum.2.1 monthDataFull 1 2023 2 none out hout
  rw [hout, Option.map_some', h]
  have hfm : monthDataFull.filterMap DailyRec.rainfall_total
      = List.replicate 28 1 := by
    simp [monthDataFull]
  rw [hfm]
  norm_num [List.sum_replicate, pyRound, roundHalfEven]

theorem monthlyYearValues_fst_isSome (ld : List DailyRec) :
    ((monthlyYearValues ld).1).isSome
      = (decide (21 ≤ ld.length)
          && !(ld.filterMap DailyRec.rainfall_total).isEmpty) := by
  unfold monthlyYearValues
  by_cases h : 21 ≤ ld.length
  · rw [if_pos h]
    cases hfm : ld.filterMap DailyRec.rainfall_total with
    | nil => simp [h, hfm]
    | cons a t => simp [h, hfm]
  · rw [if_neg h]
    simp [h]

/-- Claim C5 as amended: a 30-year monthly climate normal for the canonical
1991-2020 window exists exactly when at least 20 years *qualify*, where a
year qualifies when its month has at least 21 days of data AND at least one
of those days has a non-null rainfall value (`years_with_data` is counted
from the rainfall yearly series; a valid month whose rainfall entries are all
null does not count). -/
theorem climate_normal_min_years (data : ℤ → List DailyRec) (sid month : ℕ) :
    (compute_monthly_normal data sid month 1991 2020 20).isSome = true ↔
      20 ≤ ((List.range 30).map (fun i : ℕ => (1991 : ℤ) + (i : ℤ))).countP
          (fun y => decide (21 ≤ (data y).length)
            && !((data y).filterMap DailyRec.rainfall_total).isEmpty) := by
  have hn : ((2020 : ℤ) + 1 - 1991).toNat = 30 := rfl
  have key : ∀ (l : List ℤ),
      ((l.map (fun y => monthlyYearValues (data y))).map (fun t => t.1)).countP
          Option.isSome
        = l.countP (fun y => decide (21 ≤ (data y).length)
            && !((data y).filterMap DailyRec.rainfall_total).isEmpty) := by
    intro l
    induction l with
    | nil => rfl
    | cons a t ih =>
      simp only [List.map_cons, List.countP_cons, ih,
        monthlyYearValues_fst_isSome]
  simp only [compute_monthly_normal, calculate_data_quality, hn]
  rw [key]
  by_cases h : ((List.range 30).map (fun i : ℕ => (1991 : ℤ) + (i : ℤ))).countP
      (fun y => decide (21 ≤ (data y).length)
        && !((data y).filterMap DailyRec.rainfall_total).isEmpty) < 20
  · rw [if_pos h]
    exact iff_of_false (by simp) (by omega)
  · rw [if_neg h]
    exact iff_of_true (by simp) (by omega)

/-- Claim C5, counterexample: 20 years of the 1991-2020 window have a valid
month (21 days of data each) — so the claim's qualifying count is 20 and it
predicts a normal — but in one of them (2010) every rainfall entry is null,
so the code's `years_with_data` is 19 and `compute_monthly_normal` returns
`None`. -/
theorem climate_normal_min_years_counterexample :
    ((List.range 30).map (fun i : ℕ => (1991 : ℤ) + (i : ℤ))).countP
        (fun y => decide (21 ≤ (normalYearData y).length)) = 20
  ∧ compute_monthly_normal normalYearData 1 1 1991 2020 20 = none := by
  exact ⟨by decide, by decide⟩

theorem et0_hargreaves_error_of_lt (ops : FloatOps) (tmax tmin lat : ℚ)
    (day : ℕ) (h : tmax < tmin) :
    ∃ e, calculate_et0_hargreaves ops tmax tmin lat day = Except.error e := by
  rcases hra : calculate_extraterrestrial_radiation ops lat day with e | ra
  · exact ⟨e, by rw [calculate_et0_hargreaves, hra]⟩
  · refine ⟨"math domain error", ?_⟩
    rw [calculate_et0_hargreaves, hra]
    dsimp only
    rw [if_pos (show tmax - tmin < 0 by linarith)]

theorem mapExcept_error_of_mem {α β : Type} (g : α → Except String β)
    (l : List α) (x : α) (hx : x ∈ l) (hgx : ∀ v, g x ≠ Except.ok v) :
    ∃ e, mapExcept g l = Except.error e := by
  induction l with
  | nil => cases hx
  | cons a t ih =>
    rcases List.mem_cons.mp hx with rfl | hmem
    · rcases hga : g x with e | b
      · exact ⟨e, by simp [mapExcept, hga]⟩
      · exact absurd hga (hgx b)
    · rcases hga : g a with e | b
      · exact ⟨e, by simp [mapExcept, hga]⟩
      · obtain ⟨e, he⟩ := ih hmem
        exact ⟨e, by simp [mapExcept, hga, he]⟩

/-- Claim C10: `calculate_et0_hargreaves` raises (a `math domain error`)
whenever `temp_max < temp_min` — `sqrt(temp_max - temp_min)` has a negative
argument (an `acos` domain failure in the radiation step, which the source
computes first, also raises) — and success implies both `temp_max ≥ temp_min`
and a non-negative ET0 value.  `compute_et0_series` filters records only on
non-null temperatures (plus the station latitude being present): a record
with `temp_max < temp_min` makes the whole series computation raise, while
records lacking a temperature are skipped and a missing latitude yields
`[]`. -/
theorem et0_domain_safety :
    (∀ (ops : FloatOps) (tmax tmin lat : ℚ) (day : ℕ), tmax < tmin →
        ∃ e, calculate_et0_hargreaves ops tmax tmin lat day = Except.error e)
  ∧ (∀ (ops : FloatOps) (tmax tmin lat : ℚ) (day : ℕ) (v : ℚ),
        calculate_et0_hargreaves ops tmax tmin lat day = Except.ok v →
        tmin ≤ tmax ∧ 0 ≤ v)
  ∧ (∀ (ops : FloatOps) (lat : ℚ) (daily : List DailyRec),
        (∃ r ∈ daily, ∃ a b, r.temp_max = some a ∧ r.temp_min = some b
          ∧ a < b) →
        ∃ e, compute_et0_series ops (some lat) daily = Except.error e)
  ∧ (∀ (ops : FloatOps) (daily : List DailyRec),
        compute_et0_series ops none daily = Except.ok [])
  ∧ (∀ (ops : FloatOps) (lat : Option ℚ) (r : DailyRec)
        (daily : List DailyRec),
        r.temp_max = none ∨ r.temp_min = none →
        compute_et0_series ops lat (r :: daily)
          = compute_et0_series ops lat daily) := by
  refine ⟨et0_hargreaves_error_of_lt, ?_, ?_, ?_, ?_⟩
  · intro ops tmax tmin lat day v h
    rcases hra : calculate_extraterrestrial_radiation ops lat day with e | ra
    · rw [calculate_et0_hargreaves, hra] at h
      exact absurd h (by simp)
    · rw [calculate_et0_hargreaves, hra] at h
      dsimp only at h
      by_cases hd : tmax - tmin < 0
      · rw [if_pos hd] at h
        exact absurd h (by simp)
      · rw [if_neg hd] at h
        injection h with h2
        subst h2
        exact ⟨by linarith, le_max_left 0 _⟩
  · intro ops lat daily hbad
    obtain ⟨r, hmem, a, b, hta, htb, hab⟩ := hbad
    obtain ⟨e0, he0⟩ :=
      et0_hargreaves_error_of_lt ops a b lat (dayOfYear r.date) hab
    refine mapExcept_error_of_mem _ _ (r.date, a, b) ?_ ?_
    · exact List.mem_filterMap.mpr ⟨r, hmem, by rw [hta, htb]⟩
    · intro v hv
      rw [he0] at hv
      exact absurd hv (by simp)
  · intro ops daily
    rfl
  · intro ops lat r daily h
    rcases lat with _ | l
    · rfl
    · rcases h with h | h
      · simp [compute_et0_series, List.filterMap_cons, h]
      · rcases hta : r.temp_max with _ | a <;>
          simp [compute_et0_series, List.filterMap_cons, h, hta]

theorem et0_domain_safety_witness :
    ∃ e, calculate_et0_hargreaves
        ⟨fun _ => 0, fun _ => 0, fun _ => 0, fun _ => 0, fun _ => 0, 0⟩
        5 10 0 74 = Except.error e := by
  exact et0_domain_safety.1
    ⟨fun _ => 0, fun _ => 0, fun _ => 0, fun _ => 0, fun _ => 0, 0⟩
    5 10 0 74 (by norm_num)

theorem isDryDay_iff (f : ℤ → Option ℚ) (x : ℤ) :
    isDryDay f x = true ↔ ∀ r, f x = some r → r < 1 := by
  unfold isDryDay
  cases h : f x with
  | none => simp
  | some r => simp

theorem drySpellScan_iff (f : ℤ → Option ℚ) :
    ∀ (n : ℕ) (b : ℤ) (c : ℕ), c < 7 →
      (∀ k : ℕ, k < c → isDryDay f (b - 1 - (k : ℤ)) = true) →
      (drySpellScan f n b c = true ↔
        ∃ j : ℤ, -(c : ℤ) ≤ j ∧ j + 7 ≤ (n : ℤ) ∧
          ∀ k : ℕ, k < 7 → isDryDay f (b + j + (k : ℤ)) = true) := by
  intro n
  induction n with
  | zero =>
    intro b c hc _
    simp only [drySpellScan]
    refine iff_of_false (by simp) ?_
    rintro ⟨j, hj1, hj2, _⟩
    omega
  | succ n ih =>
    intro b c hc hpre
    simp only [drySpellScan]
    by_cases hd : isDryDay f b = true
    · rw [if_pos hd]
      by_cases h7 : 7 ≤ c + 1
      · rw [if_pos h7]
        have hc6 : c = 6 := by omega
        subst hc6
        refine iff_of_true rfl ?_
        refine ⟨-6, by norm_num, by omega, ?_⟩
        intro k hk
        by_cases hk6 : k < 6
        · have hq := hpre (5 - k) (by omega)
          have he : b + -6 + (k : ℤ) = b - 1 - ((5 - k : ℕ) : ℤ) := by
            have h5 : ((5 - k : ℕ) : ℤ) = 5 - (k : ℤ) := by omega
            rw [h5]
            ring
          rw [he]
          exact hq
        · have hk6' : k = 6 := by omega
          subst hk6'
          have he : b + -6 + ((6 : ℕ) : ℤ) = b := by push_cast; ring
          rw [he]
          exact hd
      · rw [if_neg h7]
        have hc' : c + 1 < 7 := by omega
        have hpre' : ∀ k : ℕ, k < c + 1 →
            isDryDay f (b + 1 - 1 - (k : ℤ)) = true := by
          intro k hk
          cases k with
          | zero =>
            have he : b + 1 - 1 - ((0 : ℕ) : ℤ) = b := by push_cast; ring
            rw [he]
            exact hd
          | succ m =>
            have hq := hpre m (by omega)
            have he : b + 1 - 1 - ((m + 1 : ℕ) : ℤ) = b - 1 - (m : ℤ) := by
              push_cast
              ring
            rw [he]
            exact hq
        rw [ih (b + 1) (c + 1) hc' hpre']
        constructor
        · rintro ⟨j, hj1, hj2, hj3⟩
          refine ⟨j + 1, by push_cast at hj1 ⊢; omega,
            by push_cast at hj2 ⊢; omega, ?_⟩
          intro k hk
          have he : b + (j + 1) + (k : ℤ) = b + 1 + j + (k : ℤ) := by ring
          rw [he]
          exact hj3 k hk
        · rintro ⟨j, hj1, hj2, hj3⟩
          refine ⟨j - 1, by push_cast at hj1 ⊢; omega,
            by push_cast at hj2 ⊢; omega, ?_⟩
          intro k hk
          have he : b + 1 + (j - 1) + (k : ℤ) = b + j + (k : ℤ) := by ring
          rw [he]
          exact hj3 k hk
    · have hdf : isDryDay f b = false := by
        cases hh : isDryDay f b
        · rfl
        · exact absurd hh hd
      rw [if_neg hd]
      rw [ih (b + 1) 0 (by norm_num)
        (by intro k hk; exact absurd hk (Nat.not_lt_zero k))]
      constructor
      · rintro ⟨j, hj1, hj2, hj3⟩
        refine ⟨j + 1, by push_cast at hj1 ⊢; omega,
          by push_cast at hj2 ⊢; omega, ?_⟩
        intro k hk
        have he : b + (j + 1) + (k : ℤ) = b + 1 + j + (k : ℤ) := by ring
        rw [he]
        exact hj3 k hk
      · rintro ⟨j, hj1, hj2, hj3⟩
        have hj0 : 1 ≤ j := by
          by_contra hle
          push_neg at hle
          have hk7 : (-j).toNat < 7 := by omega
          have hq := hj3 (-j).toNat hk7
          have he : b + j + ((-j).toNat : ℤ) = b := by omega
          rw [he] at hq
          rw [hq] at hdf
          simp at hdf
        refine ⟨j - 1, by push_cast; omega,
          by push_cast at hj2 ⊢; omega, ?_⟩
        intro k hk
        have he : b + 1 + (j - 1) + (k : ℤ) = b + j + (k : ℤ) := by ring
        rw [he]
        exact hj3 k hk

theorem noFalseStart_iff (f : ℤ → Option ℚ) (d : ℤ) :
    drySpellScan f 20 (d + 3) 0 = false ↔
      ¬ ∃ j : ℤ, 0 ≤ j ∧ j + 7 ≤ 20 ∧
          ∀ k : ℕ, k < 7 → ∀ r, f (d + 3 + j + (k : ℤ)) = some r → r < 1 := by
  have hscan := drySpellScan_iff f 20 (d + 3) 0 (by norm_num)
    (by intro k hk; exact absurd hk (Nat.not_lt_zero k))
  constructor
  · intro hf hex
    obtain ⟨j, hj0, hj7, hrun⟩ := hex
    have hT : drySpellScan f 20 (d + 3) 0 = true := by
      refine hscan.mpr ⟨j, by push_cast; omega, by push_cast; omega, ?_⟩
      intro k hk
      exact (isDryDay_iff f (d + 3 + j + (k : ℤ))).mpr (hrun k hk)
    rw [hf] at hT
    simp at hT
  · intro hnex
    cases hh : drySpellScan f 20 (d + 3) 0
    · rfl
    · obtain ⟨j, hj0, hj7, hrun⟩ := hscan.mp hh
      refine absurd ⟨j, by push_cast at hj0; omega,
        by push_cast at hj7; omega, ?_⟩ hnex
      intro k hk r hr
      exact (isDryDay_iff f (d + 3 + j + (k : ℤ))).mp (hrun k hk) r hr

theorem onsetCandidate_iff (f : ℤ → Option ℚ) (d : ℤ) :
    onsetCandidate f d = true ↔ onsetSpec f d := by
  unfold onsetCandidate threeDaySum onsetSpec
  rcases h0 : f d with _ | a <;> rcases h1 : f (d + 1) with _ | b <;>
    rcases h2 : f (d + 2) with _ | c <;> simp only [h0, h1, h2]
  · simp
  · simp
  · simp
  · simp
  · simp
  · simp
  · simp
  · rw [Bool.and_eq_true, decide_eq_true_eq, Bool.not_eq_true',
      noFalseStart_iff f d]
    constructor
    · rintro ⟨hsum, hns⟩
      exact ⟨⟨a, b, c, rfl, rfl, rfl, hsum⟩, hns⟩
    · rintro ⟨⟨a', b', c', ha, hb, hc, hsum⟩, hns⟩
      injection ha with ha
      injection hb with hb
      injection hc with hc
      subst ha
      subst hb
      subst hc
      exact ⟨hsum, hns⟩

theorem detectOnsetAux_some_iff (f : ℤ → Option ℚ) :
    ∀ (n : ℕ) (s d : ℤ),
      detectOnsetAux f n s = some d ↔
        (s ≤ d ∧ d < s + (n : ℤ) ∧ onsetCandidate f d = true ∧
          ∀ x, s ≤ x → x < d → onsetCandidate f x = false) := by
  intro n
  induction n with
  | zero =>
    intro s d
    simp only [detectOnsetAux]
    refine iff_of_false (by simp) ?_
    rintro ⟨h1, h2, _, _⟩
    omega
  | succ n ih =>
    intro s d
    simp only [detectOnsetAux]
    by_cases hc : onsetCandidate f s = true
    · rw [if_pos hc]
      constructor
      · intro h
        injection h with h
        subst h
        refine ⟨le_refl s, by push_cast; omega, hc, ?_⟩
        intro x hx1 hx2
        exact absurd hx2 (not_lt.mpr hx1)
      · rintro ⟨h1, h2, h3, h4⟩
        rcases eq_or_lt_of_le h1 with rfl | hlt
        · rfl
        · have hf := h4 s (le_refl s) hlt
          rw [hf] at hc
          simp at hc
    · have hcf : onsetCandidate f s = false := by
        cases hh : onsetCandidate f s
        · rfl
        · exact absurd hh hc
      rw [if_neg hc, ih (s + 1) d]
      constructor
      · rintro ⟨h1, h2, h3, h4⟩
        refine ⟨by omega, by push_cast at h2 ⊢; omega, h3, ?_⟩
        intro x hx1 hx2
        rcases eq_or_lt_of_le hx1 with rfl | hgt
        · exact hcf
        · exact h4 x (by omega) hx2
      · rintro ⟨h1, h2, h3, h4⟩
        have hne : s ≠ d := by
          rintro rfl
          rw [hcf] at h3
          simp at h3
        refine ⟨by omega, by push_cast at h2 ⊢; omega, h3, ?_⟩
        intro x hx1 hx2
        exact h4 x (by omega) hx2

theorem detectOnsetAux_none_iff (f : ℤ → Option ℚ) :
    ∀ (n : ℕ) (s : ℤ),
      detectOnsetAux f n s = none ↔
        ∀ x, s ≤ x → x < s + (n : ℤ) → onsetCandidate f x = false := by
  intro n
  induction n with
  | zero =>
    intro s
    simp only [detectOnsetAux]
    refine iff_of_true trivial ?_
    intro x h1 h2
    exact absurd h2 (by omega)
  | succ n ih =>
    intro s
    simp only [detectOnsetAux]
    by_cases hc : onsetCandidate f s = true
    · rw [if_pos hc]
      refine iff_of_false (by simp) ?_
      intro hall
      have hf := hall s (le_refl s) (by push_cast; omega)
      rw [hf] at hc
      simp at hc
    · have hcf : onsetCandidate f s = false := by
        cases hh : onsetCandidate f s
        · rfl
        · exact absurd hh hc
      rw [if_neg hc, ih (s + 1)]
      constructor
      · intro hall x h1 h2
        rcases eq_or_lt_of_le h1 with rfl | hgt
        · exact hcf
        · exact hall x (by omega) (by push_cast at h2 ⊢; omega)
      · intro hall x h1 h2
        exact hall x (by omega) (by push_cast at h2 ⊢; omega)

/-- Claim C3: `detect_onset` returns exactly the first date `d` in the search
window whose next 3 days are recorded and sum to at least 20mm (a sum of
exactly 20mm qualifies) such that no run of 7 consecutive dry days (below
1mm; missing days count as dry) starts within the following 20 days.
Candidates failing the false-start test do not end the scan — the first date
satisfying both conditions is still found — and `none` is returned exactly
when no date in the window qualifies. -/
theorem onset_detection_characterization (f : ℤ → Option ℚ) (s e : ℤ) :
    (∀ d, detect_onset f s e = some d ↔
        (s ≤ d ∧ d ≤ e ∧ onsetSpec f d ∧
          ∀ x, s ≤ x → x < d → ¬ onsetSpec f x))
  ∧ (detect_onset f s e = none ↔ ∀ d, s ≤ d → d ≤ e → ¬ onsetSpec f d) := by
  constructor
  · intro d
    rw [detect_onset, detectOnsetAux_some_iff]
    constructor
    · rintro ⟨h1, h2, h3, h4⟩
      refine ⟨h1, by omega, (onsetCandidate_iff f d).mp h3, ?_⟩
      intro x hx1 hx2 hspec
      have hf := h4 x hx1 hx2
      have hT := (onsetCandidate_iff f x).mpr hspec
      rw [hf] at hT
      simp at hT
    · rintro ⟨h1, h2, h3, h4⟩
      refine ⟨h1, by omega, (onsetCandidate_iff f d).mpr h3, ?_⟩
      intro x hx1 hx2
      cases hh : onsetCandidate f x
      · rfl
      · exact absurd ((onsetCandidate_iff f x).mp hh) (h4 x hx1 hx2)
  · rw [detect_onset, detectOnsetAux_none_iff]
    constructor
    · intro hall d h1 h2 hspec
      have hf := hall d h1 (by omega)
      have hT := (onsetCandidate_iff f d).mpr hspec
      rw [hf] at hT
      simp at hT
    · intro hall x h1 h2
      cases hh : onsetCandidate f x
      · rfl
      · exact absurd ((onsetCandidate_iff f x).mp hh) (hall x h1 (by omega))

theorem windowSum_some_iff (f : ℤ → Option ℚ) :
    ∀ (n : ℕ) (d : ℤ) (s : ℚ),
      windowSum f n d = some s ↔
        ∃ g : ℕ → ℚ, (∀ k : ℕ, k < n → f (d + (k : ℤ)) = some (g k)) ∧
          s = (Finset.range n).sum g := by
  intro n
  induction n with
  | zero =>
    intro d s
    simp only [windowSum]
    constructor
    · intro h
      injection h with h
      subst h
      exact ⟨fun _ => 0,
        by intro k hk; exact absurd hk (Nat.not_lt_zero k), by simp⟩
    · rintro ⟨g, _, hs⟩
      rw [hs]
      simp
  | succ n ih =>
    intro d s
    simp only [windowSum]
    rcases hf : f d with _ | r
    · refine iff_of_false (by simp) ?_
      rintro ⟨g, hg, _⟩
      have h0 := hg 0 (Nat.succ_pos n)
      rw [show d + ((0 : ℕ) : ℤ) = d by push_cast; ring, hf] at h0
      simp at h0
    · constructor
      · intro h
        rw [Option.map_eq_some'] at h
        obtain ⟨t, ht, hts⟩ := h
        obtain ⟨g, hg, hgs⟩ := (ih (d + 1) t).mp ht
        refine ⟨fun k => if k = 0 then r else g (k - 1), ?_, ?_⟩
        · intro k hk
          cases k with
          | zero =>
            simp only [if_pos rfl]
            rw [show d + ((0 : ℕ) : ℤ) = d by push_cast; ring]
            exact hf
          | succ m =>
            simp only [Nat.succ_ne_zero, if_false, Nat.add_sub_cancel]
            rw [show d + ((m + 1 : ℕ) : ℤ) = d + 1 + (m : ℤ) by push_cast; ring]
            exact hg m (by omega)
        · have hsum : (Finset.range (n + 1)).sum
              (fun k => if k = 0 then r else g (k - 1))
                = r + (Finset.range n).sum g := by
            rw [Finset.sum_range_succ']
            have h2 : (if (0 : ℕ) = 0 then r else g (0 - 1)) = r := by simp
            rw [h2]
            have h1 : (Finset.range n).sum
                (fun i => if i + 1 = 0 then r else g (i + 1 - 1))
                  = (Finset.range n).sum g := by
              refine Finset.sum_congr rfl ?_
              intro i _
              simp
            rw [h1]
            ring
          rw [hsum, ← hts, hgs]
      · rintro ⟨g, hg, hs⟩
        have h0 := hg 0 (Nat.succ_pos n)
        rw [show d + ((0 : ℕ) : ℤ) = d by push_cast; ring, hf] at h0
        injection h0 with h0
        have hrec : windowSum f n (d + 1)
            = some ((Finset.range n).sum (fun i => g (i + 1))) := by
          refine (ih (d + 1) _).mpr ⟨fun i => g (i + 1), ?_, rfl⟩
          intro k hk
          rw [show d + 1 + (k : ℤ) = d + ((k + 1 : ℕ) : ℤ) by push_cast; ring]
          exact hg (k + 1) (by omega)
        rw [hrec]
        dsimp only
        rw [Option.map_some']
        congr 1
        rw [hs, Finset.sum_range_succ', ← h0]
        ring

theorem cessationWindow_iff (f : ℤ → Option ℚ) (w : ℤ) :
    cessationWindow f w = true ↔ dryWindowSpec f w := by
  unfold cessationWindow dryWindowSpec
  rcases hs : windowSum f 20 w with _ | s
  · refine iff_of_false (by simp) ?_
    rintro ⟨g, hg, _⟩
    have hT := (windowSum_some_iff f 20 w ((Finset.range 20).sum g)).mpr
      ⟨g, hg, rfl⟩
    rw [hs] at hT
    simp at hT
  · simp only [decide_eq_true_eq]
    obtain ⟨g0, hg0, hs0⟩ := (windowSum_some_iff f 20 w s).mp hs
    constructor
    · intro hlt
      exact ⟨g0, hg0, by rw [← hs0]; exact hlt⟩
    · rintro ⟨g, hg, hlt⟩
      have hsum : (Finset.range 20).sum g = (Finset.range 20).sum g0 := by
        refine Finset.sum_congr rfl ?_
        intro k hk
        have h1 := hg k (Finset.mem_range.mp hk)
        have h2 := hg0 k (Finset.mem_range.mp hk)
        rw [h1] at h2
        injection h2 with h2
      rw [hs0, ← hsum]
      exact hlt

theorem lastRainyFrom_spec (f : ℤ → Option ℚ) (lo : ℤ) :
    ∀ (n : ℕ) (d : ℤ), (d - lo + 1).toNat = n →
      ((∀ r, lastRainyFrom f lo n d = some r ↔
          (lo ≤ r ∧ r ≤ d ∧ rainyP f r ∧
            ∀ q, r < q → q ≤ d → ¬ rainyP f q))
      ∧ (lastRainyFrom f lo n d = none ↔
          ∀ q, lo ≤ q → q ≤ d → ¬ rainyP f q)) := by
  intro n
  induction n with
  | zero =>
    intro d hd
    have hdlo : d < lo := by omega
    constructor
    · intro r
      simp only [lastRainyFrom]
      refine iff_of_false (by simp) ?_
      rintro ⟨h1, h2, _, _⟩
      omega
    · simp only [lastRainyFrom]
      refine iff_of_true (by simp) ?_
      intro q h1 h2 _
      omega
  | succ n ih =>
    intro d hd
    have hlod : lo ≤ d := by omega
    have hih := ih (d - 1) (by omega)
    rcases hf : f d with _ | v
    · have hnr : ¬ rainyP f d := by
        rintro ⟨q, hq, _⟩
        rw [hf] at hq
        simp at hq
      constructor
      · intro r
        simp only [lastRainyFrom]
        rw [if_pos hlod, hf]
        rw [hih.1 r]
        constructor
        · rintro ⟨h1, h2, h3, h4⟩
          refine ⟨h1, by omega, h3, ?_⟩
          intro q hq1 hq2
          rcases eq_or_lt_of_le hq2 with rfl | hql
          · exact hnr
          · exact h4 q hq1 (by omega)
        · rintro ⟨h1, h2, h3, h4⟩
          have hrd : r ≠ d := by
            rintro rfl
            exact hnr h3
          refine ⟨h1, by omega, h3, ?_⟩
          intro q hq1 hq2
          exact h4 q hq1 (by omega)
      · simp only [lastRainyFrom]
        rw [if_pos hlod, hf]
        rw [hih.2]
        constructor
        · intro hall q h1 h2
          rcases eq_or_lt_of_le h2 with rfl | hql
          · exact hnr
          · exact hall q h1 (by omega)
        · intro hall q h1 h2
          exact hall q h1 (by omega)
    · by_cases hv : 1 ≤ v
      · have hrd : rainyP f d := ⟨v, hf, hv⟩
        constructor
        · intro r
          simp only [lastRainyFrom]
          rw [if_pos hlod, hf]
          dsimp only
          rw [if_pos hv]
          constructor
          · intro h
            injection h with h
            subst h
            refine ⟨hlod, le_refl d, hrd, ?_⟩
            intro q hq1 hq2
            exact absurd (hq1.trans_le hq2) (lt_irrefl d)
          · rintro ⟨h1, h2, h3, h4⟩
            rcases eq_or_lt_of_le h2 with rfl | hlt
            · rfl
            · exact absurd hrd (h4 d hlt (le_refl d))
        · simp only [lastRainyFrom]
          rw [if_pos hlod, hf]
          dsimp only
          rw [if_pos hv]
          refine iff_of_false (by simp) ?_
          intro hall
          exact hall d hlod (le_refl d) hrd
      · have hnr : ¬ rainyP f d := by
          rintro ⟨q, hq, hq1⟩
          rw [hf] at hq
          injection hq with hq
          subst hq
          exact hv hq1
        constructor
        · intro r
          simp only [lastRainyFrom]
          rw [if_pos hlod, hf]
          dsimp only
          rw [if_neg hv]
          rw [hih.1 r]
          constructor
          · rintro ⟨h1, h2, h3, h4⟩
            refine ⟨h1, by omega, h3, ?_⟩
            intro q hq1 hq2
            rcases eq_or_lt_of_le hq2 with rfl | hql
            · exact hnr
            · exact h4 q hq1 (by omega)
          · rintro ⟨h1, h2, h3, h4⟩
            have hrdne : r ≠ d := by
              rintro rfl
              exact hnr h3
            refine ⟨h1, by omega, h3, ?_⟩
            intro q hq1 hq2
            exact h4 q hq1 (by omega)
        · simp only [lastRainyFrom]
          rw [if_pos hlod, hf]
          dsimp only
          rw [if_neg hv]
          rw [hih.2]
          constructor
          · intro hall q h1 h2
            rcases eq_or_lt_of_le h2 with rfl | hql
            · exact hnr
            · exact hall q h1 (by omega)
          · intro hall q h1 h2
            exact hall q h1 (by omega)

theorem onset_detection_characterization_witness :
    detect_onset (fun _ => some 7) 0 10 = some 0 := by
  refine ((onset_detection_characterization (fun _ => some 7) 0 10).1 0).mpr
    ⟨le_refl 0, by norm_num, ⟨⟨7, 7, 7, rfl, rfl, rfl, by norm_num⟩, ?_⟩, ?_⟩
  · rintro ⟨j, hj0, hj7, hrun⟩
    have h7 := hrun 0 (by norm_num) 7 rfl
    norm_num at h7
  · intro x h1 h2
    exact absurd h2 (by omega)

theorem detectCessationAux_some_iff (f : ℤ → Option ℚ) (onset : ℤ) :
    ∀ (n : ℕ) (w dres : ℤ),
      detectCessationAux f onset n w = some dres ↔
        ∃ v, w ≤ v ∧ v < w + (n : ℤ) ∧ cessationWindow f v = true ∧
          (∀ u, w ≤ u → u < v → cessationWindow f u = false) ∧
          dres = cessResult f onset v := by
  intro n
  induction n with
  | zero =>
    intro w dres
    simp only [detectCessationAux]
    refine iff_of_false (by simp) ?_
    rintro ⟨v, h1, h2, _⟩
    omega
  | succ n ih =>
    intro w dres
    simp only [detectCessationAux]
    by_cases hc : cessationWindow f w = true
    · rw [if_pos hc]
      constructor
      · intro h
        injection h with h
        refine ⟨w, le_refl w, by push_cast; omega, hc, ?_, h.symm⟩
        intro u hu1 hu2
        exact absurd hu2 (not_lt.mpr hu1)
      · rintro ⟨v, h1, h2, h3, h4, h5⟩
        rcases eq_or_lt_of_le h1 with rfl | hlt
        · rw [h5]
        · have hf := h4 w (le_refl w) hlt
          rw [hf] at hc
          simp at hc
    · have hcf : cessationWindow f w = false := by
        cases hh : cessationWindow f w
        · rfl
        · exact absurd hh hc
      rw [if_neg hc, ih (w + 1) dres]
      constructor
      · rintro ⟨v, h1, h2, h3, h4, h5⟩
        refine ⟨v, by omega, by push_cast at h2 ⊢; omega, h3, ?_, h5⟩
        intro u hu1 hu2
        rcases eq_or_lt_of_le hu1 with rfl | hgt
        · exact hcf
        · exact h4 u (by omega) hu2
      · rintro ⟨v, h1, h2, h3, h4, h5⟩
        have hne : w ≠ v := by
          rintro rfl
          rw [hcf] at h3
          simp at h3
        refine ⟨v, by omega, by push_cast at h2 ⊢; omega, h3, ?_, h5⟩
        intro u hu1 hu2
        exact h4 u (by omega) hu2

theorem detectCessationAux_none_iff (f : ℤ → Option ℚ) (onset : ℤ) :
    ∀ (n : ℕ) (w : ℤ),
      detectCessationAux f onset n w = none ↔
        ∀ v, w ≤ v → v < w + (n : ℤ) → cessationWindow f v = false := by
  intro n
  induction n with
  | zero =>
    intro w
    simp only [detectCessationAux]
    refine iff_of_true (by simp) ?_
    intro v h1 h2
    exact absurd h2 (by omega)
  | succ n ih =>
    intro w
    simp only [detectCessationAux]
    by_cases hc : cessationWindow f w = true
    · rw [if_pos hc]
      refine iff_of_false (by simp) ?_
      intro hall
      have hf := hall w (le_refl w) (by push_cast; omega)
      rw [hf] at hc
      simp at hc
    · have hcf : cessationWindow f w = false := by
        cases hh : cessationWindow f w
        · rfl
        · exact absurd hh hc
      rw [if_neg hc, ih (w + 1)]
      constructor
      · intro hall v h1 h2
        rcases eq_or_lt_of_le h1 with rfl | hgt
        · exact hcf
        · exact hall v (by omega) (by push_cast at h2 ⊢; omega)
      · intro hall v h1 h2
        exact hall v (by omega) (by push_cast at h2 ⊢; omega)

theorem cessResult_cases (f : ℤ → Option ℚ) (onset w : ℤ) (h : onset < w) :
    (onset ≤ cessResult f onset w ∧ cessResult f onset w ≤ w - 1 ∧
      rainyP f (cessResult f onset w) ∧
      ∀ q, cessResult f onset w < q → q ≤ w - 1 → ¬ rainyP f q)
  ∨ ((∀ q, onset ≤ q → q ≤ w - 1 → ¬ rainyP f q) ∧
      cessResult f onset w = w - 1) := by
  have hspec := lastRainyFrom_spec f onset ((w - onset).toNat) (w - 1)
    (by omega)
  unfold cessResult
  rcases hlr : lastRainyFrom f onset ((w - onset).toNat) (w - 1) with _ | r
  · right
    exact ⟨(hspec.2).mp hlr, rfl⟩
  · left
    exact (hspec.1 r).mp hlr

theorem cessCharUnique (f : ℤ → Option ℚ) (onset w d1 d2 : ℤ)
    (h1 : (onset ≤ d1 ∧ d1 ≤ w - 1 ∧ rainyP f d1 ∧
        ∀ q, d1 < q → q ≤ w - 1 → ¬ rainyP f q)
      ∨ ((∀ q, onset ≤ q → q ≤ w - 1 → ¬ rainyP f q) ∧ d1 = w - 1))
    (h2 : (onset ≤ d2 ∧ d2 ≤ w - 1 ∧ rainyP f d2 ∧
        ∀ q, d2 < q → q ≤ w - 1 → ¬ rainyP f q)
      ∨ ((∀ q, onset ≤ q → q ≤ w - 1 → ¬ rainyP f q) ∧ d2 = w - 1)) :
    d1 = d2 := by
  rcases h1 with ⟨h1a, h1b, h1c, h1d⟩ | ⟨h1a, h1b⟩ <;>
    rcases h2 with ⟨h2a, h2b, h2c, h2d⟩ | ⟨h2a, h2b⟩
  · by_contra hne
    rcases lt_or_gt_of_ne hne with hlt | hgt
    · exact h1d d2 hlt h2b h2c
    · exact h2d d1 hgt h1b h1c
  · exact absurd h1c (h2a d1 h1a h1b)
  · exact absurd h2c (h1a d2 h2a h2b)
  · rw [h1b, h2b]

/-- Claim C4: given an onset date, `detect_cessation` scans forward from the
day after the onset and finds the first date `w` (within the search range)
whose next 20 days are all recorded with cumulative rainfall below 10mm; it
reports the last day with at least 1mm rainfall lying in `[onset, w-1]`,
falling back to `w - 1` when no such rainy day exists; it returns `none`
exactly when no such 20-day dry window starts in the range. -/
theorem cessation_detection_characterization (f : ℤ → Option ℚ)
    (onset e : ℤ) :
    (∀ d, detect_cessation f onset e = some d ↔
        ∃ w, onset + 1 ≤ w ∧ w ≤ e ∧ dryWindowSpec f w ∧
          (∀ u, onset + 1 ≤ u → u < w → ¬ dryWindowSpec f u) ∧
          ((onset ≤ d ∧ d ≤ w - 1 ∧ rainyP f d ∧
              ∀ q, d < q → q ≤ w - 1 → ¬ rainyP f q)
            ∨ ((∀ q, onset ≤ q → q ≤ w - 1 → ¬ rainyP f q) ∧ d = w - 1)))
  ∧ (detect_cessation f onset e = none ↔
      ∀ w, onset + 1 ≤ w → w ≤ e → ¬ dryWindowSpec f w) := by
  constructor
  · intro d
    rw [detect_cessation, detectCessationAux_some_iff]
    constructor
    · rintro ⟨v, hv1, hv2, hv3, hv4, hv5⟩
      refine ⟨v, hv1, by omega, (cessationWindow_iff f v).mp hv3, ?_, ?_⟩
      · intro u hu1 hu2 hspec
        have hfu := hv4 u hu1 hu2
        have hT := (cessationWindow_iff f u).mpr hspec
        rw [hfu] at hT
        simp at hT
      · rw [hv5]
        exact cessResult_cases f onset v (by omega)
    · rintro ⟨w, hw1, hw2, hw3, hw4, hw5⟩
      refine ⟨w, hw1, by omega, (cessationWindow_iff f w).mpr hw3, ?_, ?_⟩
      · intro u hu1 hu2
        cases hh : cessationWindow f u
        · rfl
        · exact absurd ((cessationWindow_iff f u).mp hh) (hw4 u hu1 hu2)
      · exact cessCharUnique f onset w d (cessResult f onset w) hw5
          (cessResult_cases f onset w (by omega))
  · rw [detect_cessation, detectCessationAux_none_iff]
    constructor
    · intro hall w h1 h2 hspec
      have hfw := hall w h1 (by omega)
      have hT := (cessationWindow_iff f w).mpr hspec
      rw [hfw] at hT
      simp at hT
    · intro hall u h1 h2
      cases hh : cessationWindow f u
      · rfl
      · exact absurd ((cessationWindow_iff f u).mp hh) (hall u h1 (by omega))

theorem cessation_detection_characterization_witness :
    detect_cessation (fun _ => some 0) 0 30 = some 0 := by
  refine ((cessation_detection_characterization (fun _ => some 0) 0 30).1
      0).mpr ⟨1, by norm_num, by norm_num, ?_, ?_, ?_⟩
  · exact ⟨fun _ => 0, fun k _ => rfl, by simp⟩
  · intro u h1 h2
    exact absurd h2 (by omega)
  · right
    refine ⟨?_, by norm_num⟩
    rintro q h1 h2 ⟨r, hr, hge⟩
    injection hr with hr
    rw [← hr] at hge
    norm_num at hge
